import Mathlib

/-!
Verification development for the PKU-BlackBoard-Watcher repository.

The Python modules under `app/` are shallowly embedded as executable Lean
definitions:

* `app/models.py`   → namespace `Models` (the `Item` dataclass and its
  `identity_fp` / `state_fp` fingerprints);
* `app/store.py`    → namespace `Store` (the SQLite `items` table modelled as
  a list of rows, with `upsert_seen`, `bulk_classify`, `mark_notified`,
  `ack_state`);
* `app/notify.py`   → namespace `Notify` (`simplify_course_name`,
  `humanize_time`, `message_for_new_item`, `message_for_updated_item`, …);
* `app/main.py`     → namespace `Main` (the per-item notification decision of
  the `--run` loop, and the pending-list ordering);
* `app/bb/announcements.py` → namespace `Ann` (`normalize_bb_cn_datetime`);
* `app/bb/fetch_all.py` → namespace `FetchAll` (the per-course/per-board
  error-isolation control flow, over an abstract page environment).

Modelling conventions, used consistently below:

* Python `str` is Lean `String`; `str.strip()` / `" ".join(s.split())` are
  modelled by `pyStrip` / `pyCollapse`, written over `List Char` so that they
  compute by kernel reduction.
* `hashlib.sha1(json.dumps(payload, sort_keys=True))` is modelled by the
  canonical payload itself (a Lean structure with decidable equality): the
  serialization is injective on the payloads the program builds, and the hash
  is treated as collision-free, which is the reading under which the spec's
  fingerprint claims are stated.
* Values of the open `raw` map (`dict[str, Any]`) are modelled by `RawVal`
  (string, boolean or `None`), an association list standing for the dict.
* A raised Python exception in a function that can raise is modelled by an
  `Option`/`Except` result.
-/

/-- Python whitespace for `str.strip()` / `str.split()` (ASCII part; the
inputs the program handles contain only these). -/
def pyIsSpace (c : Char) : Bool :=
  c == ' ' || c == '\t' || c == '\n' || c == '\r' || c == '\x0b' || c == '\x0c'

/-- `l` with leading and trailing whitespace removed (Python `str.strip()`
on the character list). -/
def stripChars (l : List Char) : List Char :=
  ((l.dropWhile pyIsSpace).reverse.dropWhile pyIsSpace).reverse

/-- Python `s.strip()`. -/
def pyStrip (s : String) : String :=
  String.mk (stripChars s.toList)

/-- Splitter for Python `s.split()`: maximal runs of non-whitespace. -/
def splitWsAux : List Char → List Char → List (List Char)
  | [], acc => if acc.isEmpty then [] else [acc.reverse]
  | c :: rest, acc =>
    if pyIsSpace c then
      if acc.isEmpty then splitWsAux rest [] else acc.reverse :: splitWsAux rest []
    else splitWsAux rest (c :: acc)

/-- Python `s.split()` (split on whitespace runs, no empty fields). -/
def pyWords (l : List Char) : List (List Char) :=
  splitWsAux l []

/-- Python `" ".join(s.split())` — whitespace collapse; the `.strip()` the
source sometimes appends is a no-op on the joined form and is absorbed
here. -/
def pyCollapse (s : String) : String :=
  String.mk (List.intercalate [' '] (pyWords s.toList))

/-- A value of the loosely-typed `raw` dict (`dict[str, Any]`): the parsers
only ever store strings, booleans and `None` in the fields the diff/state
logic reads. -/
inductive RawVal where
  | str (s : String)
  | bool (b : Bool)
  | null
deriving DecidableEq, Repr

/-- The `raw` dict, as an association list (first binding wins). -/
abbrev RawMap := List (String × RawVal)

/-- Python `raw.get(k, dflt)`. -/
def rawGet (m : RawMap) (k : String) (dflt : RawVal) : RawVal :=
  match m.lookup k with
  | some v => v
  | none => dflt

/-- Python truthiness of a raw value (`bool(v)` / `if v:`). -/
def RawVal.truthy : RawVal → Bool
  | .str s => !(s == "")
  | .bool b => b
  | .null => false

/-- Rendering of a raw value in a string context (`f"{v}"`); the fields so
used always hold strings at runtime. -/
def RawVal.toStr : RawVal → String
  | .str s => s
  | .bool b => if b then "True" else "False"
  | .null => ""

/-- Python `a or b` on raw values (first truthy operand). -/
def rvOr (a b : RawVal) : RawVal :=
  if a.truthy then a else b

namespace Models

/-- `app/models.py::Item` (frozen dataclass). -/
structure Item where
  source : String
  course_id : String
  course_name : String
  title : String
  url : String
  due : Option String := none
  ts : Option String := none
  external_id : Option String := none
  raw : RawMap := []
deriving DecidableEq, Repr

/-- The single key selected into the identity payload: exactly one of
`external_id`, `url`, `title` (the JSON object keys are distinct, so the
serialized payloads of different constructors differ). -/
inductive IdKey where
  | external_id (v : String)
  | url (v : String)
  | title (v : String)
deriving DecidableEq, Repr

/-- The identity payload that `Item.identity_fp` hashes (sha1 of its
canonical JSON serialization, modelled as the payload itself). -/
structure IdentityFp where
  source : String
  course_id : String
  key : IdKey
deriving DecidableEq, Repr

/-- `app/models.py::Item.identity_fp`. -/
def Item.identity_fp (it : Item) : IdentityFp :=
  let external_id := pyStrip (it.external_id.getD "")
  let url := pyStrip it.url
  let title := pyStrip it.title
  { source := pyStrip it.source
    course_id := pyStrip it.course_id
    key :=
      if external_id ≠ "" then .external_id external_id
      else if url ≠ "" then .url url
      else .title title }

/-- The source-specific part of the state payload (the keys added to `state`
by the `if/elif` ladder in `Item.state_fp`; `base` for unknown sources). -/
inductive StateExt where
  | announcement (published_at published_at_raw author content : RawVal)
  | teaching_content (has_attachments : Bool) (content : RawVal)
  | assignment (is_online_submission : Bool) (submitted : RawVal)
      (submitted_at_raw grade_raw points_possible_raw : RawVal)
  | grade_item (category status grade_raw points_possible_raw : RawVal)
  | base
deriving DecidableEq, Repr

/-- The state payload that `Item.state_fp` hashes. -/
structure StateFp where
  id : IdentityFp
  title : String
  url : String
  due : String
  ts : String
  ext : StateExt
deriving DecidableEq, Repr

/-- `app/models.py::Item.state_fp`. -/
def Item.state_fp (it : Item) : StateFp :=
  let raw := it.raw
  let source := pyStrip it.source
  { id := it.identity_fp
    title := pyStrip it.title
    url := pyStrip it.url
    due := pyStrip (it.due.getD "")
    ts := pyStrip (it.ts.getD "")
    ext :=
      if source = "announcement" then
        .announcement (rawGet raw "published_at" (.str ""))
          (rawGet raw "published_at_raw" (.str ""))
          (rawGet raw "author" (.str "")) (rawGet raw "content" (.str ""))
      else if source = "teaching_content" then
        .teaching_content (rawGet raw "has_attachments" (.bool false)).truthy
          (rawGet raw "content" (.str ""))
      else if source = "assignment" then
        .assignment (rawGet raw "is_online_submission" (.bool false)).truthy
          (rawGet raw "submitted" .null)
          (rawGet raw "submitted_at_raw" (.str ""))
          (rawGet raw "grade_raw" (.str ""))
          (rawGet raw "points_possible_raw" (.str ""))
      else if source = "grade_item" then
        .grade_item (rawGet raw "category" (.str "")) (rawGet raw "status" (.str ""))
          (rawGet raw "grade_raw" (.str ""))
          (rawGet raw "points_possible_raw" (.str ""))
      else .base }

end Models

namespace Store

open Models

/-- One row of the `items` table (`app/store.py::init_db`). `fp` is the
`PRIMARY KEY`. `sent_state_fp = none` and `sent_at = none` model NULL/`''`
(the two are conflated by the `COALESCE(...,'')` reads). `raw_json` holds the
JSON-roundtripped `raw` map (serialize/parse is the identity on `RawMap`). -/
structure Row where
  fp : IdentityFp
  course_id : String
  course_name : String
  source : String
  external_id : String
  state_fp : StateFp
  sent_state_fp : Option StateFp
  title : String
  url : String
  due : String
  ts : String
  raw_json : RawMap
  created_at : String
  updated_at : String
  sent_at : Option String
deriving DecidableEq, Repr

/-- The `items` table, as its list of rows. -/
abbrev DB := List Row

/-- The backfill UPDATE of `_migrate_items_table` (store.py lines 64-67),
run by every store operation before its own statement: a row that was sent
(`sent_at` non-empty) but has no recorded `sent_state_fp` gets
`sent_state_fp := state_fp`. (The `state_fp != ''` guard is vacuous here:
every modelled row carries a state fingerprint. The ALTER TABLE column
additions of the migration are schema-level and have no counterpart in the
fixed `Row` type.) -/
def migrateRow (r : Row) : Row :=
  if r.sent_state_fp = none ∧ r.sent_at ≠ none then
    { r with sent_state_fp := some r.state_fp }
  else r

/-- `_migrate_items_table` applied to the whole table. -/
def migrate (db : DB) : DB :=
  db.map migrateRow

/-- The VALUES tuple `upsert_seen` builds for one item (`now` is the
`_now_iso()` run timestamp; the INSERT leaves `sent_state_fp`/`sent_at`
unset, i.e. NULL). -/
def rowOf (now : String) (it : Item) : Row :=
  { fp := it.identity_fp
    course_id := it.course_id
    course_name := it.course_name
    source := it.source
    external_id := it.external_id.getD ""
    state_fp := it.state_fp
    sent_state_fp := none
    title := it.title
    url := it.url
    due := it.due.getD ""
    ts := it.ts.getD ""
    raw_json := it.raw
    created_at := now
    updated_at := now
    sent_at := none }

/-- The `ON CONFLICT(fp) DO UPDATE SET` clause of `upsert_seen`: refreshes
every listed column from `excluded`, leaving `fp`, `sent_state_fp`,
`created_at` and `sent_at` alone. -/
def conflictUpdate (r : Row) (excluded : Row) : Row :=
  { r with
    course_id := excluded.course_id
    course_name := excluded.course_name
    source := excluded.source
    external_id := excluded.external_id
    state_fp := excluded.state_fp
    title := excluded.title
    url := excluded.url
    due := excluded.due
    ts := excluded.ts
    raw_json := excluded.raw_json
    updated_at := excluded.updated_at }

/-- One INSERT .. ON CONFLICT DO UPDATE executed by `upsert_seen`'s
`executemany`. -/
def upsertOne (now : String) (db : DB) (it : Item) : DB :=
  let excluded := rowOf now it
  if db.any (fun r => decide (r.fp = excluded.fp)) then
    db.map (fun r => if r.fp = excluded.fp then conflictUpdate r excluded else r)
  else
    db ++ [excluded]

/-- The `executemany` of `upsert_seen` (all INSERT .. ON CONFLICT rows). -/
def upsertAll (now : String) (db : DB) (items : List Item) : DB :=
  items.foldl (upsertOne now) db

/-- `app/store.py::upsert_seen`: with no items it returns before touching
the database; otherwise it first runs `_migrate_items_table` (whose
backfill can set `sent_state_fp` on legacy rows) and then the
insert-or-update of every item. -/
def upsert_seen (now : String) (db : DB) (items : List Item) : DB :=
  if items = [] then db else upsertAll now (migrate db) items

/-- The `(sent_state_fp, sent_at)` columns of a row — the part `upsert_seen`
must never touch. -/
def sentPart (r : Row) : Option StateFp × Option String :=
  (r.sent_state_fp, r.sent_at)

/-- The per-fp record returned by `app/store.py::fetch_records`
(`state_fp`, `sent_state_fp`, parsed `raw_json`, `sent_at`). -/
structure FetchedRec where
  state_fp : StateFp
  sent_state_fp : Option StateFp
  raw : RawMap
  sent_at : Option String
deriving DecidableEq, Repr

/-- `app/store.py::fetch_records`, for a single fp (`none` when no row);
the connection first runs `_migrate_items_table`, so the record is read
from the migrated table. -/
def fetch_record (db : DB) (fp : IdentityFp) : Option FetchedRec :=
  ((migrate db).find? (fun r => decide (r.fp = fp))).map
    (fun r =>
      { state_fp := r.state_fp
        sent_state_fp := r.sent_state_fp
        raw := r.raw_json
        sent_at := r.sent_at })

/-- The insertion-ordered dict `{it.identity_fp(): it for it in items}` in
`bulk_classify` (a later duplicate key overwrites the value in place). -/
def byFp (items : List Item) : List (IdentityFp × Item) :=
  items.foldl
    (fun m it =>
      let fp := it.identity_fp
      if m.any (fun p => decide (p.1 = fp)) then
        m.map (fun p => if p.1 = fp then (p.1, it) else p)
      else m ++ [(fp, it)])
    []

/-- The `SELECT fp, COALESCE(state_fp,'') ... WHERE fp IN (...)` lookup of
`bulk_classify` (rows for the same fp: the last one read wins; the PRIMARY
KEY makes this unique in practice). -/
def existingState (db : DB) (fp : IdentityFp) : Option StateFp :=
  (db.reverse.find? (fun r => decide (r.fp = fp))).map (·.state_fp)

/-- `app/store.py::bulk_classify` — partitions into (new, updated,
unchanged). Its connection also runs `_migrate_items_table` first; the
backfill writes only `sent_state_fp`, which this SELECT does not read, so
the partition is unaffected, but the lookup is modelled over the migrated
table as in the source. -/
def bulk_classify (db : DB) (items : List Item) :
    List Item × List Item × List Item :=
  (byFp items).foldl
    (fun (acc : List Item × List Item × List Item) p =>
      match existingState (migrate db) p.1 with
      | none => (acc.1 ++ [p.2], acc.2.1, acc.2.2)
      | some st =>
        if st ≠ p.2.state_fp then (acc.1, acc.2.1 ++ [p.2], acc.2.2)
        else (acc.1, acc.2.1, acc.2.2 ++ [p.2]))
    ([], [], [])

/-- `app/store.py::mark_notified` — `UPDATE items SET sent_at=?,
sent_state_fp=? WHERE fp=?` for each pair, after the migration backfill
(with no pairs it returns before touching the database). -/
def mark_notified (now : String) (db : DB) (pairs : List (IdentityFp × StateFp)) : DB :=
  if pairs = [] then db else
    pairs.foldl
      (fun db p =>
        db.map (fun r =>
          if r.fp = p.1 then { r with sent_at := some now, sent_state_fp := some p.2 } else r))
      (migrate db)

/-- `app/store.py::ack_state` — `UPDATE items SET sent_state_fp=? WHERE
fp=?` (no `sent_at`), after the migration backfill (with no pairs it
returns before touching the database). -/
def ack_state (db : DB) (pairs : List (IdentityFp × StateFp)) : DB :=
  if pairs = [] then db else
    pairs.foldl
      (fun db p =>
        db.map (fun r => if r.fp = p.1 then { r with sent_state_fp := some p.2 } else r))
      (migrate db)

/-- Number of persisted rows for an identity. -/
def countFp (db : DB) (fp : IdentityFp) : Nat :=
  (db.filter (fun r => decide (r.fp = fp))).length

end Store

/-! ## Timestamp machinery (shared by `app/bb/announcements.py` and
`app/notify.py`) -/

/-- ASCII digit test (the `\\d` of the source's regexes on its inputs). -/
def isDigit (c : Char) : Bool :=
  '0' ≤ c && c ≤ '9'

def digitVal (c : Char) : Nat :=
  c.toNat - '0'.toNat

def isAsciiLetter (c : Char) : Bool :=
  ('A' ≤ c && c ≤ 'Z') || ('a' ≤ c && c ≤ 'z')

/-- Greedy `\\d{1,2}` with full backtracking: try the two-digit read first,
fall back to one digit if the continuation fails. -/
def pD2 {α : Type} (k : Nat → List Char → Option α) : List Char → Option α
  | c1 :: c2 :: rest =>
    if isDigit c1 then
      if isDigit c2 then
        match k (digitVal c1 * 10 + digitVal c2) rest with
        | some r => some r
        | none => k (digitVal c1) (c2 :: rest)
      else k (digitVal c1) (c2 :: rest)
    else none
  | [c1] => if isDigit c1 then k (digitVal c1) [] else none
  | [] => none

/-- Exactly two digits (`\\d{2}`). -/
def pD2exact {α : Type} (k : Nat → List Char → Option α) : List Char → Option α
  | a :: b :: rest =>
    if isDigit a && isDigit b then k (digitVal a * 10 + digitVal b) rest else none
  | _ => none

/-- Exactly four digits (`\\d{4}`). -/
def pD4 {α : Type} (k : Nat → List Char → Option α) : List Char → Option α
  | a :: b :: c :: d :: rest =>
    if isDigit a && isDigit b && isDigit c && isDigit d then
      k (digitVal a * 1000 + digitVal b * 100 + digitVal c * 10 + digitVal d) rest
    else none
  | _ => none

/-- Literal character. -/
def pCh {α : Type} (ch : Char) (k : List Char → Option α) : List Char → Option α
  | c :: rest => if c = ch then k rest else none
  | [] => none

/-- Literal string. -/
def pStr {α : Type} (pat : List Char) (k : List Char → Option α) (l : List Char) :
    Option α :=
  if pat.isPrefixOf l then k (l.drop pat.length) else none

/-- `\\s*` — the continuations of every use start with a non-whitespace
token, so the greedy skip needs no backtracking. -/
def pWs0 {α : Type} (k : List Char → Option α) (l : List Char) : Option α :=
  k (l.dropWhile pyIsSpace)

/-- `\\s+` (same remark). -/
def pWs1 {α : Type} (k : List Char → Option α) : List Char → Option α
  | c :: rest => if pyIsSpace c then k (rest.dropWhile pyIsSpace) else none
  | [] => none

/-- `[A-Za-z]{2,5}`, greedy with backtracking. -/
def pLettersN {α : Type} : Nat → (List Char → Option α) → List Char → Option α
  | 0, k, l => k l
  | n + 1, k, c :: rest => if isAsciiLetter c then pLettersN n k rest else none
  | _ + 1, _, [] => none

def pLetters25 {α : Type} (k : List Char → Option α) (l : List Char) : Option α :=
  (pLettersN 5 k l).orElse fun _ =>
  (pLettersN 4 k l).orElse fun _ =>
  (pLettersN 3 k l).orElse fun _ =>
  pLettersN 2 k l

/-- The AM/PM marker alternation `(上午|下午|中午|晚上)`, in the source's
order. -/
def pAmpm {α : Type} (k : String → List Char → Option α) (l : List Char) : Option α :=
  (pStr "上午".toList (k "上午") l).orElse fun _ =>
  (pStr "下午".toList (k "下午") l).orElse fun _ =>
  (pStr "中午".toList (k "中午") l).orElse fun _ =>
  pStr "晚上".toList (k "晚上") l

/-- Python-`datetime`-style civil datetime; `tzoff` is the UTC offset in
minutes (`none` = naive). -/
structure PyDateTime where
  year : Nat
  month : Nat
  day : Nat
  hour : Nat
  minute : Nat
  second : Nat
  tzoff : Option Int
deriving DecidableEq, Repr

def isLeap (y : Nat) : Bool :=
  (y % 4 == 0 && y % 100 != 0) || y % 400 == 0

def daysInMonth (y : Nat) (m : Nat) : Nat :=
  if m = 2 then (if isLeap y then 29 else 28)
  else if m = 4 ∨ m = 6 ∨ m = 9 ∨ m = 11 then 30
  else 31

/-- The `datetime(...)` constructor: `none` models the `ValueError` it raises
on out-of-range components. -/
def mkDatetime (y mo d h mi s : Nat) (tz : Option Int) : Option PyDateTime :=
  if 1 ≤ y ∧ y ≤ 9999 ∧ 1 ≤ mo ∧ mo ≤ 12 ∧ 1 ≤ d ∧ d ≤ daysInMonth y mo
      ∧ h ≤ 23 ∧ mi ≤ 59 ∧ s ≤ 59 then
    some ⟨y, mo, d, h, mi, s, tz⟩
  else none

/-- Days since 1970-01-01 of a civil date (valid Gregorian dates in
1..9999). -/
def daysFromCivil (y0 mo d : Nat) : Int :=
  let y : Int := if mo ≤ 2 then (y0 : Int) - 1 else y0
  let era : Int := y / 400
  let yoe : Int := y - era * 400
  let mp : Int := ((mo : Int) + 9) % 12
  let doy : Int := (153 * mp + 2) / 5 + (d : Int) - 1
  let doe : Int := yoe * 365 + yoe / 4 - yoe / 100 + doy
  era * 146097 + doe - 719468

/-- Civil date from days since 1970-01-01 (inverse of `daysFromCivil`). -/
def civilFromDays (z0 : Int) : Nat × Nat × Nat :=
  let z : Int := z0 + 719468
  let era : Int := (if 0 ≤ z then z else z - 146096) / 146097
  let doe : Int := z - era * 146097
  let yoe : Int := (doe - doe / 1460 + doe / 36524 - doe / 146096) / 365
  let y : Int := yoe + era * 400
  let doy : Int := doe - (365 * yoe + yoe / 4 - yoe / 100)
  let mp : Int := (5 * doy + 2) / 153
  let d : Int := doy - (153 * mp + 2) / 5 + 1
  let m : Int := if mp < 10 then mp + 3 else mp - 9
  ((if m ≤ 2 then y + 1 else y).toNat, m.toNat, d.toNat)

def pad2 (n : Nat) : String :=
  if n < 10 then "0" ++ toString n else toString n

def pad4 (n : Nat) : String :=
  if n < 10 then "000" ++ toString n
  else if n < 100 then "00" ++ toString n
  else if n < 1000 then "0" ++ toString n
  else toString n

/-- `s.replace("Z", "+00:00")` (the only `str.replace` the source performs
before ISO parsing). -/
def replaceZ (s : String) : String :=
  String.mk (s.toList.foldr
    (fun c acc => if c = 'Z' then "+00:00".toList ++ acc else c :: acc) [])

/-- Fraction part `.fff` / `.ffffff` of a strict ISO time (value ignored by
the program). -/
def skipFrac : List Char → Option (List Char)
  | '.' :: rest =>
    let ds := rest.takeWhile isDigit
    if ds.length = 3 ∨ ds.length = 6 then some (rest.drop ds.length) else none
  | l => some l

/-- Trailing UTC-offset part of a strict ISO string (`±HH:MM` or empty). -/
def finishOffset (y mo dd hh mi ss : Nat) : List Char → Option PyDateTime
  | [] => mkDatetime y mo dd hh mi ss none
  | c :: rest =>
    if c = '+' ∨ c = '-' then
      match rest with
      | o1 :: o2 :: ':' :: o3 :: o4 :: rest2 =>
        if isDigit o1 && isDigit o2 && isDigit o3 && isDigit o4 then
          let off : Int := ((digitVal o1 * 10 + digitVal o2) * 60
            + (digitVal o3 * 10 + digitVal o4) : Nat)
          let off := if c = '-' then -off else off
          if rest2.isEmpty then mkDatetime y mo dd hh mi ss (some off) else none
        else none
      | _ => none
    else none

/-- Time-of-day and offset part after the date and separator. -/
def parseTimeAndOffset (y mo dd : Nat) (t : List Char) : Option PyDateTime :=
  match t with
  | h1 :: h2 :: rest =>
    if isDigit h1 && isDigit h2 then
      let hh := digitVal h1 * 10 + digitVal h2
      match rest with
      | ':' :: m1 :: m2 :: rest2 =>
        if isDigit m1 && isDigit m2 then
          let mi := digitVal m1 * 10 + digitVal m2
          match rest2 with
          | ':' :: s1 :: s2 :: rest3 =>
            if isDigit s1 && isDigit s2 then
              match skipFrac rest3 with
              | some rest4 => finishOffset y mo dd hh mi (digitVal s1 * 10 + digitVal s2) rest4
              | none => none
            else none
          | _ => finishOffset y mo dd hh mi 0 rest2
        else none
      | _ => finishOffset y mo dd hh 0 0 rest
    else none
  | _ => none

/-- `datetime.fromisoformat` (the strict CPython grammar
`YYYY-MM-DD[<sep>HH[:MM[:SS[.fff|.ffffff]]][±HH:MM]]`); `none` models the
raised `ValueError`. -/
def fromisoformat (s : String) : Option PyDateTime :=
  match s.toList with
  | a :: b :: c :: d :: '-' :: e :: f :: '-' :: g :: h :: rest =>
    if isDigit a && isDigit b && isDigit c && isDigit d
        && isDigit e && isDigit f && isDigit g && isDigit h then
      let y := digitVal a * 1000 + digitVal b * 100 + digitVal c * 10 + digitVal d
      let mo := digitVal e * 10 + digitVal f
      let dd := digitVal g * 10 + digitVal h
      match rest with
      | [] => mkDatetime y mo dd 0 0 0 none
      | _sep :: t => parseTimeAndOffset y mo dd t
    else none
  | _ => none

/-- `notify.humanize_time.fmt_dt`: shift an aware datetime to UTC+8 (a naive
one is just relabelled), and render `{y}年{mo}月{d}日 {h:02}:{mi:02}:{s:02}`. -/
def fmt_dt (dt : PyDateTime) : String :=
  let shifted : Nat × Nat × Nat × Nat × Nat :=
    match dt.tzoff with
    | none => (dt.year, dt.month, dt.day, dt.hour, dt.minute)
    | some off =>
      let days := daysFromCivil dt.year dt.month dt.day
      let mins : Int := days * 1440 + (dt.hour : Int) * 60 + (dt.minute : Int) + (480 - off)
      let rem := (mins.emod 1440).toNat
      let ymd := civilFromDays (mins.ediv 1440)
      (ymd.1, ymd.2.1, ymd.2.2, rem / 60, rem % 60)
  toString shifted.1 ++ "年" ++ toString shifted.2.1 ++ "月" ++ toString shifted.2.2.1
    ++ "日 " ++ pad2 shifted.2.2.2.1 ++ ":" ++ pad2 shifted.2.2.2.2 ++ ":" ++ pad2 dt.second

/-! ## `app/bb/announcements.py::normalize_bb_cn_datetime` -/

namespace Ann

/-- One anchored attempt of the `re.search` pattern
`(\\d{4})年(\\d{1,2})月(\\d{1,2})日\\s+(?:星期[一二三四五六日天]\\s+)?`
`(上午|下午|中午|晚上)?(\\d{1,2})时(\\d{1,2})分(\\d{1,2})秒(?:\\s+[A-Za-z]{2,5})?`
at the start of `l` (the trailing optional tz group can neither fail the
match nor is its capture read, so it is not modelled). -/
def matchAt (l : List Char) :
    Option (Nat × Nat × Nat × Option String × Nat × Nat × Nat) :=
  pD4 (fun y =>
    pStr "年".toList (pD2 (fun mo =>
      pStr "月".toList (pD2 (fun d =>
        pStr "日".toList (pWs1 (fun l1 =>
          let core : Option String → List Char → Option (Nat × Nat × Nat × Option String × Nat × Nat × Nat) :=
            fun am l3 =>
              pD2 (fun h =>
                pStr "时".toList (pD2 (fun mi =>
                  pStr "分".toList (pD2 (fun sec =>
                    pStr "秒".toList (fun _rest =>
                      some (y, mo, d, am, h, mi, sec))))))) l3
          let afterWeek : List Char → Option (Nat × Nat × Nat × Option String × Nat × Nat × Nat) :=
            fun l2 =>
              (pAmpm (fun a => core (some a)) l2).orElse fun _ => core none l2
          let withWeek : Option (Nat × Nat × Nat × Option String × Nat × Nat × Nat) :=
            pStr "星期".toList
              (fun r1 =>
                match r1 with
                | c :: r2 =>
                  if c ∈ ['一', '二', '三', '四', '五', '六', '日', '天'] then
                    pWs1 afterWeek r2
                  else none
                | [] => none) l1
          withWeek.orElse fun _ => afterWeek l1))))))) l

/-- The `re.search` scan: try each start position, leftmost match wins. -/
def search : List Char → Option (Nat × Nat × Nat × Option String × Nat × Nat × Nat)
  | [] => none
  | c :: rest =>
    match matchAt (c :: rest) with
    | some r => some r
    | none => search rest

/-- `app/bb/announcements.py::normalize_bb_cn_datetime`. Returns
`some out` for a normal return and `none` for a raised exception (the
`datetime(...)` constructor can raise on out-of-range components). -/
def normalize_bb_cn_datetime (raw : String) : Option String :=
  let text := pyCollapse raw
  if text = "" then some ""
  else
    match search text.toList with
    | none => some ""
    | some (y, mo, d, am, h0, mi, sec) =>
      let ampm := am.getD ""
      let h :=
        if (ampm = "下午" ∨ ampm = "晚上") ∧ h0 < 12 then h0 + 12
        else if ampm = "上午" ∧ h0 = 12 then 0
        else if ampm = "中午" ∧ h0 < 11 then h0 + 12
        else h0
      match mkDatetime y mo d h mi sec (some 480) with
      | none => none
      | some dt =>
        some (pad4 dt.year ++ "-" ++ pad2 dt.month ++ "-" ++ pad2 dt.day ++ "T"
          ++ pad2 dt.hour ++ ":" ++ pad2 dt.minute ++ ":" ++ pad2 dt.second ++ "+08:00")

end Ann

/-! ## `app/notify.py` -/

namespace Notify

open Models

/-- `notify.BarkMessage`. -/
structure BarkMessage where
  title : String
  body : String
  url : String := ""
deriving DecidableEq, Repr

/-- `∃` a run of ≥ 6 consecutive characters of the class `[0-9\-\*]`
(`re.search(r"[0-9\-\*]{6,}", prefix)`); `k` counts the current run. -/
def hasRun6 : List Char → Nat → Bool
  | [], _ => false
  | c :: rest, k =>
    if isDigit c || c = '-' || c = '*' then
      if k + 1 ≥ 6 then true else hasRun6 rest (k + 1)
    else hasRun6 rest 0

/-- Python `s.split(":", 1)` — `none` when `":" not in s`. -/
def splitFirstColon : List Char → Option (List Char × List Char)
  | [] => none
  | c :: rest =>
    if c = ':' then some ([], rest)
    else (splitFirstColon rest).map (fun p => (c :: p.1, p.2))

/-- Substring test (for `学期`/`学年` inside a parenthetical). -/
def containsSub (pat : List Char) : List Char → Bool
  | [] => decide (pat = [])
  | l@(_ :: rest) => pat.isPrefixOf l || containsSub pat rest

/-- `re.sub(r"\([^)]*(?:学期|学年)[^)]*\)\s*$", "", s)`: scan left to right
for a `(`-to-first-`)` span whose inside mentions 学期/学年 and which is
followed only by whitespace; drop from that `(` to the end. -/
def dropTermAux : List Char → List Char → Option (List Char)
  | _, [] => none
  | acc, c :: rest =>
    if c = '(' then
      let seg := rest.takeWhile (fun x => x ≠ ')')
      match rest.drop seg.length with
      | ')' :: tail =>
        if (containsSub "学期".toList seg || containsSub "学年".toList seg)
            && tail.all pyIsSpace then
          some acc.reverse
        else dropTermAux (c :: acc) rest
      | _ => dropTermAux (c :: acc) rest
    else dropTermAux (c :: acc) rest

def dropTermSuffix (l : List Char) : List Char :=
  match dropTermAux [] l with
  | some pre => pre
  | none => l

/-- `app/notify.py::simplify_course_name`. -/
def simplify_course_name (name : String) : String :=
  let s0 := pyCollapse name
  if s0 = "" then ""
  else
    let s1 :=
      match splitFirstColon s0.toList with
      | some (pre, rest) =>
        if hasRun6 pre 0 then pyStrip (String.mk rest) else s0
      | none => s0
    pyStrip (String.mk (dropTermSuffix s1.toList))

/-- `app/notify.py::_excerpt` (length in code points, as in Python). -/
def _excerpt (text : String) (limit : Nat) : String :=
  let s := pyCollapse text
  if s.toList.length ≤ limit then s
  else String.mk (s.toList.take (limit - 1)) ++ "…"

/-- Captures of `humanize_time`'s CN pattern: year, month, day, optional
AM/PM marker, optional (hour, minute, optional second). -/
abbrev CNCapt := Nat × Nat × Nat × Option String × Option (Nat × Nat × Option Nat)

/-- The anchored (`re.match` + `$`) CN pattern of `humanize_time`:
`^(\d{4})年(\d{1,2})月(\d{1,2})日(?:\s*星期[一二三四五六日天])?`
`(?:\s+(上午|下午|中午|晚上))?`
`(?:\s*(\d{1,2})(?:时|:)(\d{1,2})(?:分|:)??(\d{1,2})?(?:秒)?)?`
`(?:\s+[A-Za-z]{2,5})?$` — with the regex's backtracking order (greedy `?`
groups try matching first, the lazy `??` tries skipping first). -/
def matchCN (l : List Char) : Option CNCapt :=
  pD4 (fun y =>
    pStr "年".toList (pD2 (fun mo =>
      pStr "月".toList (pD2 (fun d =>
        pStr "日".toList (fun l1 =>
          let fin : Option String → Option (Nat × Nat × Option Nat) → List Char → Option CNCapt :=
            fun am tm l4 =>
              let kEnd : List Char → Option CNCapt := fun l5 =>
                if l5.isEmpty then some (y, mo, d, am, tm) else none
              (pWs1 (pLetters25 kEnd) l4).orElse fun _ => kEnd l4
          let timePart : Option String → List Char → Option CNCapt := fun am l3 =>
            (pWs0 (pD2 (fun h l3a =>
              match l3a with
              | c :: r =>
                if c = '时' ∨ c = ':' then
                  pD2 (fun mi l3b =>
                    let secTail : Option Nat → List Char → Option CNCapt := fun sec l3d =>
                      fin am (some (h, mi, sec)) l3d
                    let secPart : List Char → Option CNCapt := fun l3c =>
                      (pD2 (fun sec l3d =>
                          (pStr "秒".toList (secTail (some sec)) l3d).orElse fun _ =>
                            secTail (some sec) l3d) l3c).orElse fun _ =>
                        (pStr "秒".toList (secTail none) l3c).orElse fun _ =>
                          secTail none l3c
                    (secPart l3b).orElse fun _ =>
                      match l3b with
                      | c2 :: r2 => if c2 = '分' ∨ c2 = ':' then secPart r2 else none
                      | [] => none) r
                else none
              | [] => none)) l3).orElse fun _ => fin am none l3
          let ampmPart : List Char → Option CNCapt := fun l2 =>
            (pWs1 (pAmpm (fun a => timePart (some a))) l2).orElse fun _ => timePart none l2
          (pWs0 (pStr "星期".toList (fun r1 =>
              match r1 with
              | c :: r2 =>
                if c ∈ ['一', '二', '三', '四', '五', '六', '日', '天'] then ampmPart r2
                else none
              | [] => none)) l1).orElse fun _ => ampmPart l1)))))) l

/-- `^(\d{4})-(\d{1,2})-(\d{1,2})$`. -/
def matchIsoDateOnly (l : List Char) : Option (Nat × Nat × Nat) :=
  pD4 (fun y =>
    pCh '-' (pD2 (fun mo =>
      pCh '-' (pD2 (fun d rest =>
        if rest.isEmpty then some (y, mo, d) else none))))) l

/-- `^(\d{4})-(\d{1,2})-(\d{1,2})\s+(上午|下午)?(\d{1,2}):(\d{2})$`. -/
def matchBbDisplay (l : List Char) :
    Option (Nat × Nat × Nat × Option String × Nat × Nat) :=
  pD4 (fun y =>
    pCh '-' (pD2 (fun mo =>
      pCh '-' (pD2 (fun d =>
        pWs1 (fun l1 =>
          let cont : Option String → List Char → Option (Nat × Nat × Nat × Option String × Nat × Nat) :=
            fun am l2 =>
              pD2 (fun h =>
                pCh ':' (pD2exact (fun mi rest =>
                  if rest.isEmpty then some (y, mo, d, am, h, mi) else none))) l2
          (pStr "上午".toList (cont (some "上午")) l1).orElse fun _ =>
            (pStr "下午".toList (cont (some "下午")) l1).orElse fun _ =>
              cont none l1)))))) l

/-- `^(\d{2})-(\d{1,2})-(\d{1,2})\s+(上午|下午)?(\d{1,2}):(\d{2})$`
(two-digit year, read as `2000 + yy`). -/
def matchYYDisplay (l : List Char) :
    Option (Nat × Nat × Nat × Option String × Nat × Nat) :=
  pD2exact (fun yy =>
    pCh '-' (pD2 (fun mo =>
      pCh '-' (pD2 (fun d =>
        pWs1 (fun l1 =>
          let cont : Option String → List Char → Option (Nat × Nat × Nat × Option String × Nat × Nat) :=
            fun am l2 =>
              pD2 (fun h =>
                pCh ':' (pD2exact (fun mi rest =>
                  if rest.isEmpty then some (yy, mo, d, am, h, mi) else none))) l2
          (pStr "上午".toList (cont (some "上午")) l1).orElse fun _ =>
            (pStr "下午".toList (cont (some "下午")) l1).orElse fun _ =>
              cont none l1)))))) l

/-- `app/notify.py::humanize_time`. -/
def humanize_time (raw : String) : String :=
  let s := pyCollapse raw
  if s = "" ∨ s = "-" ∨ s = "—" then ""
  else
    let isoTry : Option String :=
      if s.toList.contains 'T' then
        match fromisoformat (replaceZ s) with
        | some dt => some (fmt_dt dt)
        | none => none
      else none
    match isoTry with
    | some out => out
    | none =>
      match matchCN s.toList with
      | some (y, mo, d, am, tm) =>
        match tm with
        | none => toString y ++ "年" ++ toString mo ++ "月" ++ toString d ++ "日"
        | some (h0, mi, secOpt) =>
          let sec := secOpt.getD 0
          let ampm := pyStrip (am.getD "")
          let h :=
            if (ampm = "下午" ∨ ampm = "晚上") ∧ h0 < 12 then h0 + 12
            else if ampm = "上午" ∧ h0 = 12 then 0
            else if ampm = "中午" ∧ h0 < 11 then h0 + 12
            else h0
          toString y ++ "年" ++ toString mo ++ "月" ++ toString d ++ "日 "
            ++ pad2 h ++ ":" ++ pad2 mi ++ ":" ++ pad2 sec
      | none =>
        match matchIsoDateOnly s.toList with
        | some (y, mo, d) => toString y ++ "年" ++ toString mo ++ "月" ++ toString d ++ "日"
        | none =>
          match matchBbDisplay s.toList with
          | some (y, mo, d, am, h0, mi) =>
            let ampm := pyStrip (am.getD "")
            let h1 := if ampm = "下午" ∧ h0 < 12 then h0 + 12 else h0
            let h := if ampm = "上午" ∧ h1 = 12 then 0 else h1
            toString y ++ "年" ++ toString mo ++ "月" ++ toString d ++ "日 "
              ++ pad2 h ++ ":" ++ pad2 mi ++ ":00"
          | none =>
            match matchYYDisplay s.toList with
            | some (yy, mo, d, am, h0, mi) =>
              let y := 2000 + yy
              let ampm := pyStrip (am.getD "")
              let h1 := if ampm = "下午" ∧ h0 < 12 then h0 + 12 else h0
              let h := if ampm = "上午" ∧ h1 = 12 then 0 else h1
              toString y ++ "年" ++ toString mo ++ "月" ++ toString d ++ "日 "
                ++ pad2 h ++ ":" ++ pad2 mi ++ ":00"
            | none => s

/-- `f"{humanize_time(v) or v}"`. -/
def hmOr (v : String) : String :=
  if humanize_time v ≠ "" then humanize_time v else v

/-- `.rstrip("/")`. -/
def rstripSlash (s : String) : String :=
  String.mk ((s.toList.reverse.dropWhile (fun c => c = '/')).reverse)

/-- `app/notify.py::build_bark_message`. -/
def build_bark_message (kind course_name item_title url : String)
    (lines : List String) : BarkMessage :=
  let display_course :=
    if simplify_course_name course_name ≠ "" then simplify_course_name course_name
    else course_name
  let title := pyStrip ("[" ++ display_course ++ "] " ++ kind)
  let body_lines :=
    (if item_title ≠ "" then [pyStrip item_title] else [])
      ++ lines.filter (fun ln => ln ≠ "")
  { title := title
    body := pyStrip (String.intercalate "\n" body_lines)
    url := url }

/-- `app/notify.py::message_for_new_item`. It consumes `item.to_dict()`,
whose `source`/`course_name`/`title`/`url`/`raw` fields are the item's own,
so it is defined directly on `Item`. -/
def message_for_new_item (it : Item) : Option BarkMessage :=
  let source := pyStrip it.source
  let course_name := pyStrip it.course_name
  let title := pyStrip it.title
  let url := pyStrip it.url
  let raw := it.raw
  if source = "announcement" then
    let published := rvOr (rawGet raw "published_at" .null)
      (rvOr (rawGet raw "published_at_raw" .null) (.str ""))
    let author := (rvOr (rawGet raw "author" (.str "")) (.str "")).toStr
    let content := _excerpt (rvOr (rawGet raw "content" (.str "")) (.str "")).toStr 180
    let lines :=
      (if published.truthy then ["发布时间: " ++ hmOr published.toStr] else [])
        ++ (if author ≠ "" then ["发帖者: " ++ author] else [])
        ++ (if content ≠ "" then ["内容: " ++ content] else [])
    some (build_bark_message "新通知" course_name title url lines)
  else if source = "teaching_content" then
    let has_att := (rawGet raw "has_attachments" (.bool false)).truthy
    let content := _excerpt (rvOr (rawGet raw "content" (.str "")) (.str "")).toStr 180
    let lines :=
      ["附件: " ++ (if has_att then "有" else "无")]
        ++ (if content ≠ "" then ["内容: " ++ content] else [])
    some (build_bark_message "新教学内容" course_name title url lines)
  else if source = "assignment" then
    let online := (rawGet raw "is_online_submission" (.bool false)).truthy
    let due := rvOr (rawGet raw "due_at" .null) (rvOr (rawGet raw "due_at_raw" .null) (.str ""))
    let lines :=
      if online then
        (if due.truthy then ["到期: " ++ hmOr due.toStr] else [])
          ++ (if rawGet raw "submitted" .null = .bool true then
                let submitted_at := rvOr (rawGet raw "submitted_at_raw" .null) (.str "")
                if submitted_at.truthy then ["已提交: " ++ hmOr submitted_at.toStr]
                else ["已提交"]
              else [])
      else ["在线提交: 否"]
    some (build_bark_message "新作业" course_name title url lines)
  else if source = "grade_item" then
    let cat := (rvOr (rawGet raw "category" (.str "")) (.str "")).toStr
    let grade_raw := pyStrip (rvOr (rawGet raw "grade_raw" .null) (.str "")).toStr
    let points_raw := pyStrip (rvOr (rawGet raw "points_possible_raw" .null) (.str "")).toStr
    let due := rvOr (rawGet raw "duedate_display" .null)
      (rvOr (rawGet raw "duedate" .null) (.str ""))
    let last := rvOr (rawGet raw "lastactivity" .null)
      (rvOr (rawGet raw "lastactivity_display" .null) (.str ""))
    let lines :=
      (if cat ≠ "" then ["类别: " ++ cat] else [])
        ++ (if grade_raw ≠ "" ∨ points_raw ≠ "" then
              [rstripSlash ("成绩: " ++ grade_raw ++ "/" ++ points_raw)] else [])
        ++ (if due.truthy then ["到期: " ++ hmOr due.toStr] else [])
        ++ (if last.truthy then ["评分时间: " ++ hmOr last.toStr] else [])
    some (build_bark_message "新成绩项" course_name title url lines)
  else none

/-- The `s(v)` helper of `message_for_updated_item`:
`" ".join(str(v or "").split()).strip()`. -/
def sOf (v : RawVal) : String :=
  pyCollapse (rvOr v (.str "")).toStr

/-- `is_missing_grade` of the grade_item branch. -/
def is_missing_grade (g : String) : Bool :=
  g = "" || g = "-" || g = "—"

/-- The grade_item branch's extracted fields (the Python locals
`cat`/`new_grade`/… are `s(raw.get(...))` of the respective raw map). -/
def gi_cat (raw : RawMap) : String :=
  sOf (rawGet raw "category" (.str ""))

def gi_grade (raw : RawMap) : String :=
  sOf (rawGet raw "grade_raw" (.str ""))

def gi_points (raw : RawMap) : String :=
  sOf (rawGet raw "points_possible_raw" (.str ""))

def gi_due (raw : RawMap) : String :=
  sOf (rvOr (rawGet raw "duedate_display" .null) (rvOr (rawGet raw "duedate" .null) (.str "")))

def gi_status (raw : RawMap) : String :=
  sOf (rawGet raw "status" (.str ""))

/-- The `diffs` list of the grade_item else-branch: one line per tracked
field (points, due, status, category) that actually differs. -/
def gi_diffs (old_raw new_raw : RawMap) : List String :=
  (if gi_points old_raw ≠ gi_points new_raw then
    [pyStrip ("满分: " ++ gi_points old_raw ++ " -> " ++ gi_points new_raw)] else [])
  ++ (if gi_due old_raw ≠ gi_due new_raw then
    [pyStrip ("到期: " ++ hmOr (gi_due old_raw) ++ " -> " ++ hmOr (gi_due new_raw))] else [])
  ++ (if gi_status old_raw ≠ gi_status new_raw then
    [pyStrip ("状态: " ++ gi_status old_raw ++ " -> " ++ gi_status new_raw)] else [])
  ++ (if gi_cat old_raw ≠ gi_cat new_raw then
    [pyStrip ("类别: " ++ gi_cat old_raw ++ " -> " ++ gi_cat new_raw)] else [])

/-- `app/notify.py::message_for_updated_item` (defined on the new `Item` and
the stored record's parsed `raw_json`). -/
def message_for_updated_item (it : Item) (old_raw : RawMap) : Option BarkMessage :=
  let source := pyStrip it.source
  let course_name := pyStrip it.course_name
  let title := pyStrip it.title
  let url := pyStrip it.url
  let new_raw := it.raw
  if source = "grade_item" then
    let cat := gi_cat new_raw
    let new_grade := gi_grade new_raw
    let old_grade := gi_grade old_raw
    let new_points := gi_points new_raw
    let old_points := gi_points old_raw
    let new_due := gi_due new_raw
    let old_due := gi_due old_raw
    let new_status := gi_status new_raw
    let old_status := gi_status old_raw
    let is_assignment_grade := cat = "作业" ∨ gi_cat old_raw = "作业"
    if is_missing_grade old_grade ∧ ¬ is_missing_grade new_grade then
      let kind := if is_assignment_grade then "作业出分" else "成绩出分"
      let lines :=
        (if cat ≠ "" then ["类别: " ++ cat] else [])
          ++ [rstripSlash ("成绩: " ++ new_grade ++ "/" ++ new_points)]
          ++ (if new_due ≠ "" then ["到期: " ++ hmOr new_due] else [])
          ++ (if new_status ≠ "" then ["状态: " ++ new_status] else [])
      some (build_bark_message kind course_name title url lines)
    else if old_grade ≠ new_grade then
      let kind := if is_assignment_grade then "作业成绩变动" else "成绩变动"
      let lines :=
        (if cat ≠ "" then ["类别: " ++ cat] else [])
          ++ [rstripSlash ("原成绩: " ++ old_grade ++ "/" ++ old_points)]
          ++ [rstripSlash ("新成绩: " ++ new_grade ++ "/" ++ new_points)]
          ++ (if new_due ≠ "" ∧ new_due ≠ old_due then
                [pyStrip ("到期: " ++ hmOr old_due ++ " -> " ++ hmOr new_due)] else [])
          ++ (if new_status ≠ "" ∧ new_status ≠ old_status then
                [pyStrip ("状态: " ++ old_status ++ " -> " ++ new_status)] else [])
      some (build_bark_message kind course_name title url lines)
    else
      if gi_diffs old_raw new_raw ≠ [] then
        some (build_bark_message "成绩项更新" course_name title url
          ((gi_diffs old_raw new_raw).take 6))
      else none
  else if source = "assignment" then
    let old_url :=
      if sOf (rawGet old_raw "url" (.str "")) ≠ "" then sOf (rawGet old_raw "url" (.str ""))
      else sOf (rawGet old_raw "submission_url" (.str ""))
    let new_url :=
      if sOf (rawGet new_raw "url" (.str "")) ≠ "" then sOf (rawGet new_raw "url" (.str ""))
      else sOf (rawGet new_raw "submission_url" (.str ""))
    let old_online := (rawGet old_raw "is_online_submission" (.bool false)).truthy
    let new_online := (rawGet new_raw "is_online_submission" (.bool false)).truthy
    let old_due := sOf (rvOr (rawGet old_raw "due_at" .null)
      (rvOr (rawGet old_raw "due_at_raw" .null) (.str "")))
    let new_due := sOf (rvOr (rawGet new_raw "due_at" .null)
      (rvOr (rawGet new_raw "due_at_raw" .null) (.str "")))
    let old_points := sOf (rvOr (rawGet old_raw "points_possible_raw" .null) (.str ""))
    let new_points := sOf (rvOr (rawGet new_raw "points_possible_raw" .null) (.str ""))
    let old_grade := sOf (rvOr (rawGet old_raw "grade_raw" .null) (.str ""))
    let new_grade := sOf (rvOr (rawGet new_raw "grade_raw" .null) (.str ""))
    let old_submitted := rawGet old_raw "submitted" .null
    let new_submitted := rawGet new_raw "submitted" .null
    let new_submitted_at := sOf (rvOr (rawGet new_raw "submitted_at_raw" .null) (.str ""))
    let fmt_sub : RawVal → String := fun v =>
      if v = .bool true then "已提交" else if v = .bool false then "未提交" else "未知"
    let diffs :=
      (if old_online ≠ new_online then
        ["在线提交: " ++ (if old_online then "是" else "否") ++ " -> "
          ++ (if new_online then "是" else "否")] else [])
      ++ (if old_submitted ≠ new_submitted ∧ (old_submitted ≠ .null ∨ new_submitted ≠ .null) then
        ["提交状态: " ++ fmt_sub old_submitted ++ " -> " ++ fmt_sub new_submitted]
          ++ (if new_submitted = .bool true ∧ new_submitted_at ≠ "" then
            ["提交时间: " ++ hmOr new_submitted_at] else [])
        else [])
      ++ (if old_due ≠ new_due ∧ (old_due ≠ "" ∨ new_due ≠ "") ∧ (new_online ∨ old_online) then
        [pyStrip ("到期: " ++ hmOr old_due ++ " -> " ++ hmOr new_due)] else [])
      ++ (if old_points ≠ new_points ∧ (old_points ≠ "" ∨ new_points ≠ "") then
        [pyStrip ("满分: " ++ old_points ++ " -> " ++ new_points)] else [])
      ++ (if old_grade ≠ new_grade ∧ (old_grade ≠ "" ∨ new_grade ≠ "") then
        [pyStrip ("成绩: " ++ old_grade ++ " -> " ++ new_grade)] else [])
      ++ (if old_url ≠ new_url ∧ (old_url ≠ "" ∨ new_url ≠ "") then
        ["链接发生变化"] else [])
    if diffs ≠ [] then
      some (build_bark_message "作业更新" course_name title url (diffs.take 6))
    else none
  else none

end Notify

/-! ## `app/main.py` — the `--run` loop's decision and ordering -/

/-- Python string `<=` (code-point lexicographic) on character lists. -/
def chListLe : List Char → List Char → Bool
  | [], _ => true
  | _ :: _, [] => false
  | a :: as, b :: bs =>
    if a.toNat < b.toNat then true
    else if a.toNat = b.toNat then chListLe as bs
    else false

/-- Python string `<=`, as used by tuple comparison in `list.sort`. -/
def pyStrLe (a b : String) : Bool :=
  chListLe a.toList b.toList

namespace Main

open Models Notify

/-- Outcome of the per-item body of the `--run` loop (`app/main.py` lines
293–318): enqueue a pending push with a priority tier, silently acknowledge
the `(fp, state_fp)` pair, or do nothing. -/
inductive RunStep where
  | push (prio : Nat) (fp : IdentityFp) (state_fp : StateFp) (msg : BarkMessage)
  | ack (fp : IdentityFp) (state_fp : StateFp)
  | skip
deriving DecidableEq, Repr

/-- The per-item body of the `--run` loop; `rec` is the
`fetch_records` row for the item's fp (`none` when absent, in which case
`rec.get("sent_state_fp","")` reads as empty). -/
def runStep (it : Item) (rec : Option Store.FetchedRec) : RunStep :=
  let fp := it.identity_fp
  let state_fp := it.state_fp
  match rec.bind (·.sent_state_fp) with
  | none =>
    match message_for_new_item it with
    | some msg => .push 100 fp state_fp msg
    | none => .skip
  | some sent =>
    if sent = state_fp then .skip
    else if it.source = "grade_item" ∨ it.source = "assignment" then
      match message_for_updated_item it ((rec.map (·.raw)).getD []) with
      | some msg => .push 200 fp state_fp msg
      | none => .ack fp state_fp
    else .ack fp state_fp

/-- One entry of the `pending` list: `(priority, fp-hex, state_fp-hex,
message)`; the fingerprints appear here as the sha1 hex strings the source
sorts by. -/
abbrev Pending := Nat × String × String × BarkMessage

/-- The ascending order on `key=lambda t: (-t[0], t[1])`: larger priority
first, then fp hex ascending. -/
def pendingLE (a b : Pending) : Prop :=
  a.1 > b.1 ∨ (a.1 = b.1 ∧ pyStrLe a.2.1 b.2.1 = true)

instance : DecidableRel pendingLE := fun a b =>
  inferInstanceAs (Decidable (_ ∨ _))

/-- `pending.sort(key=lambda t: (-t[0], t[1]))` — Python's stable ascending
sort under that key (any stable sort computes the same list; insertion sort
is used as the executable model). -/
def sortPending (l : List Pending) : List Pending :=
  l.insertionSort pendingLE

/-- `to_send = pending[:limit] if limit > 0 else pending`. -/
def toSend (limit : Int) (pending : List Pending) : List Pending :=
  if limit > 0 then pending.take limit.toNat else pending

end Main

/-! ## `app/bb/fetch_all.py` — per-course/per-board fetch with error
isolation.

The browser navigation and the per-board HTML extractors are external
collaborators of this control flow; each page-level outcome (a parsed list
of record dicts, or a raised exception as `Except.error`) is supplied by an
abstract environment, and the loop of `fetch_all_items` over courses and
boards — which items are collected, which error records are appended, and
that a failure never stops sibling units — is translated from the source. -/

namespace FetchAll

open Models

/-- An error record, as the dict literal the source appends (key order as
constructed; the announcement branch omits `"kind"`). -/
abbrev ErrRec := List (String × String)

/-- `app/bb/fetch_all.py::_as_item`. -/
def as_item (d : RawMap) : Item :=
  let source := pyStrip (rvOr (rawGet d "source" .null) (.str "")).toStr
  let course_id := pyStrip (rvOr (rawGet d "course_id" .null) (.str "")).toStr
  let course_name := pyStrip (rvOr (rawGet d "course_name" .null) (.str "")).toStr
  let title := pyStrip (rvOr (rawGet d "title" .null) (.str "")).toStr
  let url := pyStrip (rvOr (rawGet d "url" .null) (.str "")).toStr
  let ext_ts_due : String × String × String :=
    if source = "announcement" then
      ((rvOr (rawGet d "announcement_id" (.str "")) (.str "")).toStr,
       (rvOr (rawGet d "published_at" (.str "")) (.str "")).toStr, "")
    else if source = "teaching_content" then
      ((rvOr (rawGet d "content_item_id" (.str "")) (.str "")).toStr, "", "")
    else if source = "assignment" then
      ((rvOr (rawGet d "content_item_id" (.str "")) (.str "")).toStr,
       (rvOr (rawGet d "published_at" (.str "")) (.str "")).toStr,
       (rvOr (rawGet d "due_at" (.str "")) (rvOr (rawGet d "due_at_raw" (.str "")) (.str ""))).toStr)
    else if source = "grade_item" then
      ((rvOr (rawGet d "row_id" (.str "")) (.str "")).toStr,
       (rvOr (rawGet d "lastactivity" (.str "")) (.str "")).toStr,
       (rvOr (rawGet d "duedate" (.str "")) (rvOr (rawGet d "duedate_display" (.str "")) (.str ""))).toStr)
    else ("", "", "")
  { source := source
    course_id := course_id
    course_name := course_name
    title := title
    url := url
    due := if ext_ts_due.2.2 = "" then none else some ext_ts_due.2.2
    ts := if ext_ts_due.2.1 = "" then none else some ext_ts_due.2.1
    external_id := if ext_ts_due.1 = "" then none else some ext_ts_due.1
    raw := d }

/-- Python dict assignment `m[k] = v`. -/
def rawSet (m : RawMap) (k : String) (v : RawVal) : RawMap :=
  if m.any (fun p => decide (p.1 = k)) then
    m.map (fun p => if p.1 = k then (k, v) else p)
  else m ++ [(k, v)]

/-- Outcome of one assignment-detail enrichment attempt: the `info` dict
parsed from the detail page, and — when a "start new attempt" link exists —
the dict parsed from that secondary page (`none` when no link is found). -/
structure DetailEnv where
  info : RawMap
  newAttempt : Option RawMap

/-- Merge the new-attempt view into `info`: every non-empty field wins,
except the submission-status fields, which keep the original detail view's
values. -/
def mergeNewAttempt (info info2 : RawMap) : RawMap :=
  info2.foldl
    (fun acc kv =>
      if kv.1 = "submitted" ∨ kv.1 = "submitted_at_raw" ∨ kv.1 = "submitted_evidence" then acc
      else if kv.2 ≠ .null ∧ kv.2 ≠ .str "" then rawSet acc kv.1 kv.2
      else acc)
    info

/-- The fields written back from `info` into the assignment dict. -/
def detailKeys : List String :=
  ["due_at_raw", "points_possible_raw", "points_possible", "grade_raw", "grade",
   "attempt_grade_raw", "attempt_grade", "submitted", "submitted_at_raw",
   "submitted_evidence"]

def applyDetail (a : RawMap) (info : RawMap) : RawMap :=
  detailKeys.foldl
    (fun acc k =>
      match info.lookup k with
      | some v => if v ≠ .null ∧ v ≠ .str "" then rawSet acc k v else acc
      | none => acc)
    a

/-- `(a.get("submission_url") or a.get("url") or "").strip()`. -/
def detail_url (a : RawMap) : String :=
  pyStrip (rvOr (rawGet a "submission_url" .null) (rvOr (rawGet a "url" .null) (.str ""))).toStr

/-- The guard for opening an assignment's detail page. -/
def needsDetail (a : RawMap) : Bool :=
  (rawGet a "is_online_submission" (.bool false)).truthy
    && !((rawGet a "due_at_raw" .null).truthy || (rawGet a "due_at" .null).truthy)
    && detail_url a ≠ ""
    && Notify.containsSub "/webapps/assignment/uploadAssignment".toList (detail_url a).toList

/-- The `assignments_detail` error record. -/
def detailErr (cid cname e : String) : ErrRec :=
  [("kind", "exception"), ("course_id", cid), ("course_name", cname),
   ("board", "assignments_detail"), ("error", e)]

/-- The per-assignment enrichment loop: each qualifying assignment consumes
the next detail outcome (`i` counts them); a failure records an error and
leaves that assignment unpatched, and the loop continues. -/
def enrichAssignments (cid cname : String) (ds : Nat → Except String DetailEnv) :
    List RawMap → Nat → List RawMap × List ErrRec
  | [], _ => ([], [])
  | a :: rest, i =>
    if needsDetail a then
      match ds i with
      | .ok d =>
        let info :=
          if ¬(rawGet d.info "due_at_raw" .null).truthy
              ∨ ¬(rawGet d.info "points_possible_raw" .null).truthy then
            match d.newAttempt with
            | some info2 => mergeNewAttempt d.info info2
            | none => d.info
          else d.info
        let r := enrichAssignments cid cname ds rest (i + 1)
        (applyDetail a info :: r.1, r.2)
      | .error e =>
        let r := enrichAssignments cid cname ds rest (i + 1)
        (a :: r.1, detailErr cid cname e :: r.2)
    else
      let r := enrichAssignments cid cname ds rest i
      (a :: r.1, r.2)

/-- Page-level outcomes for one course after its entry page loaded: the
announcements parse of the entry page, and, per board, whether the menu link
was found and the board page's parse outcome. -/
structure EntryEnv where
  annParse : Except String (List RawMap)
  teachingHref : Bool
  teachingParse : Except String (List RawMap)
  assignmentsHref : Bool
  assignmentsParse : Except String (List RawMap)
  assignmentDetails : Nat → Except String DetailEnv
  gradesHref : Bool
  gradesParse : Except String (List RawMap)

/-- One course of the portal: its ids and the outcome of navigating to its
entry page. -/
structure CourseEnv where
  course_id : String
  course_name : String
  entry : Except String EntryEnv

/-- Board 1 — announcements (parsed from the entry page; NOTE: the source's
error record here carries no `"kind"` key). -/
def boardAnn (cid cname : String) (p : Except String (List RawMap)) :
    List Item × List ErrRec :=
  match p with
  | .ok ds => (ds.map as_item, [])
  | .error e =>
    ([], [[("course_id", cid), ("course_name", cname), ("board", "announcement"),
           ("error", e)]])

/-- Boards behind a menu link (teaching content / grades). -/
def boardMenu (cid cname board : String) (href : Bool)
    (p : Except String (List RawMap)) : List Item × List ErrRec :=
  if href then
    match p with
    | .ok ds => (ds.map as_item, [])
    | .error e =>
      ([], [[("kind", "exception"), ("course_id", cid), ("course_name", cname),
             ("board", board), ("error", e)]])
  else
    ([], [[("kind", "missing_menu"), ("course_id", cid), ("course_name", cname),
           ("board", board), ("error", "menu link not found")]])

/-- Board 3 — assignments, with the detail-enrichment pass. -/
def boardAssignments (cid cname : String) (href : Bool)
    (p : Except String (List RawMap)) (ds : Nat → Except String DetailEnv) :
    List Item × List ErrRec :=
  if href then
    match p with
    | .ok ass =>
      let r := enrichAssignments cid cname ds ass 0
      (r.1.map as_item, r.2)
    | .error e =>
      ([], [[("kind", "exception"), ("course_id", cid), ("course_name", cname),
             ("board", "assignments"), ("error", e)]])
  else
    ([], [[("kind", "missing_menu"), ("course_id", cid), ("course_name", cname),
           ("board", "assignments"), ("error", "menu link not found")]])

/-- One course's items and error records (the body of the `for course in
courses` loop; an exception escaping the per-board handling is caught by the
outer `except` with board `"course"`, and the loop continues). -/
def courseItemsErrors (c : CourseEnv) : List Item × List ErrRec :=
  match c.entry with
  | .error e =>
    ([], [[("kind", "exception"), ("course_id", c.course_id),
           ("course_name", c.course_name), ("board", "course"), ("error", e)]])
  | .ok env =>
    let ann := boardAnn c.course_id c.course_name env.annParse
    let tc := boardMenu c.course_id c.course_name "teaching_content"
      env.teachingHref env.teachingParse
    let ass := boardAssignments c.course_id c.course_name env.assignmentsHref
      env.assignmentsParse env.assignmentDetails
    let gr := boardMenu c.course_id c.course_name "grades" env.gradesHref env.gradesParse
    (ann.1 ++ tc.1 ++ ass.1 ++ gr.1, ann.2 ++ tc.2 ++ ass.2 ++ gr.2)

/-- `app/bb/fetch_all.py::fetch_all_items` — the loop over courses,
accumulating `all_items` and `errors`. -/
def fetch_all_items (courses : List CourseEnv) : List Item × List ErrRec :=
  courses.foldl
    (fun acc c =>
      let r := courseItemsErrors c
      (acc.1 ++ r.1, acc.2 ++ r.2))
    ([], [])

/-- The well-formedness the claim asserts of one error record (amended:
`kind` is absent exactly on the announcement board's record). -/
def errWF (r : ErrRec) : Prop :=
  (r.lookup "course_id").isSome ∧ (r.lookup "course_name").isSome
    ∧ (r.lookup "board").isSome ∧ (r.lookup "error").isSome
    ∧ (r.lookup "kind" = some "missing_menu" ∨ r.lookup "kind" = some "exception"
        ∨ (r.lookup "kind" = none ∧ r.lookup "board" = some "announcement"))

end FetchAll

/-! ### Whitespace-padding lemmas for the fingerprint claims -/

/-- Every character of `w` is Python whitespace. -/
def AllSpace (w : List Char) : Prop :=
  ∀ c ∈ w, pyIsSpace c

instance (w : List Char) : Decidable (AllSpace w) :=
  inferInstanceAs (Decidable (∀ c ∈ w, pyIsSpace c))

theorem dropWhile_append_all {p : Char → Bool} :
    ∀ (w l : List Char), (∀ c ∈ w, p c) → List.dropWhile p (w ++ l) = List.dropWhile p l := by
  intro w
  induction w with
  | nil => intro l _; rfl
  | cons c t ih =>
    intro l h
    have hc : p c := h c (List.mem_cons_self c t)
    simp [List.dropWhile_cons, hc, ih l (fun x hx => h x (List.mem_cons_of_mem c hx))]

theorem dropWhile_eq_nil_all {p : Char → Bool} :
    ∀ (w : List Char), (∀ c ∈ w, p c) → List.dropWhile p w = [] := by
  intro w h
  have := dropWhile_append_all (p := p) w [] h
  simpa using this

theorem stripChars_pad (w₁ w₂ l : List Char) (h₁ : AllSpace w₁) (h₂ : AllSpace w₂) :
    stripChars (w₁ ++ l ++ w₂) = stripChars l := by
  unfold stripChars
  rw [List.append_assoc, dropWhile_append_all w₁ (l ++ w₂) h₁, List.dropWhile_append]
  by_cases hl : (List.dropWhile pyIsSpace l).isEmpty = true
  · rw [if_pos hl, dropWhile_eq_nil_all w₂ h₂]
    have h0 : List.dropWhile pyIsSpace l = [] := by simpa using hl
    simp [h0]
  · rw [if_neg hl, List.reverse_append,
      dropWhile_append_all w₂.reverse _ (fun c hc => h₂ c (List.mem_reverse.mp hc))]

theorem pyStrip_pad (w₁ w₂ : String) (s : String)
    (h₁ : AllSpace w₁.toList) (h₂ : AllSpace w₂.toList) :
    pyStrip (w₁ ++ s ++ w₂) = pyStrip s := by
  unfold pyStrip
  have : (w₁ ++ s ++ w₂).toList = w₁.toList ++ s.toList ++ w₂.toList := by
    simp [String.toList]
  rw [this, stripChars_pad _ _ _ h₁ h₂]

/-! ### C4 — identity fingerprint: key priority and whitespace stability -/

/-- C4: `identity_fp` is a deterministic function of `source`, `course_id`
and exactly one of `external_id | url | title`, chosen by priority
`external_id > url > title` (a non-empty trimmed `external_id` makes the
fingerprint independent of `url` and `title`; with it empty, a non-empty
trimmed `url` makes it independent of `title`); and it is invariant under
leading/trailing whitespace padding of `title` and `url`. -/
theorem identity_fp_priority_and_ws (it : Models.Item) (w₁ w₂ w₃ w₄ : String)
    (hw₁ : AllSpace w₁.toList) (hw₂ : AllSpace w₂.toList)
    (hw₃ : AllSpace w₃.toList) (hw₄ : AllSpace w₄.toList) :
    (({ it with title := w₁ ++ it.title ++ w₂,
                url := w₃ ++ it.url ++ w₄ } : Models.Item).identity_fp = it.identity_fp)
    ∧ (pyStrip (it.external_id.getD "") ≠ "" →
        it.identity_fp.key = .external_id (pyStrip (it.external_id.getD "")) ∧
        ∀ t u : String,
          ({ it with title := t, url := u } : Models.Item).identity_fp = it.identity_fp)
    ∧ (pyStrip (it.external_id.getD "") = "" → pyStrip it.url ≠ "" →
        it.identity_fp.key = .url (pyStrip it.url) ∧
        ∀ t : String, ({ it with title := t } : Models.Item).identity_fp = it.identity_fp)
    ∧ (pyStrip (it.external_id.getD "") = "" → pyStrip it.url = "" →
        it.identity_fp.key = .title (pyStrip it.title))
    ∧ it.identity_fp.source = pyStrip it.source
    ∧ it.identity_fp.course_id = pyStrip it.course_id := by
  refine ⟨?_, ?_, ?_, ?_, rfl, rfl⟩
  · simp only [Models.Item.identity_fp, pyStrip_pad _ _ _ hw₁ hw₂, pyStrip_pad _ _ _ hw₃ hw₄]
  · intro h
    exact ⟨by simp only [Models.Item.identity_fp]; rw [if_pos h],
      fun t u => by simp only [Models.Item.identity_fp]; rw [if_pos h, if_pos h]⟩
  · intro h1 h2
    refine ⟨?_, fun t => ?_⟩ <;> simp [Models.Item.identity_fp, h1, h2]
  · intro h1 h2
    simp [Models.Item.identity_fp, h1, h2]

/-- Witness for `identity_fp_priority_and_ws` at a concrete item and
single-space pads. -/
theorem identity_fp_priority_and_ws_witness :
    (let it : Models.Item :=
      { source := "grade_item", course_id := "_123_1", course_name := "课",
        title := "hw1", url := "http://x/1", external_id := some "r1" }
     ({ it with title := " " ++ it.title ++ " ",
                url := " " ++ it.url ++ " " } : Models.Item).identity_fp = it.identity_fp
     ∧ (pyStrip (it.external_id.getD "") ≠ "" →
        it.identity_fp.key = .external_id (pyStrip (it.external_id.getD "")) ∧
        ∀ t u : String,
          ({ it with title := t, url := u } : Models.Item).identity_fp = it.identity_fp)
     ∧ (pyStrip (it.external_id.getD "") = "" → pyStrip it.url ≠ "" →
        it.identity_fp.key = .url (pyStrip it.url) ∧
        ∀ t : String, ({ it with title := t } : Models.Item).identity_fp = it.identity_fp)
     ∧ (pyStrip (it.external_id.getD "") = "" → pyStrip it.url = "" →
        it.identity_fp.key = .title (pyStrip it.title))
     ∧ it.identity_fp.source = pyStrip it.source
     ∧ it.identity_fp.course_id = pyStrip it.course_id) :=
  identity_fp_priority_and_ws _ " " " " " " " "
    (by decide) (by decide) (by decide) (by decide)

/-! ### C10 — state fingerprint: base projection common to all sources -/

/-- C10: for every source, the hashed state includes the item's own
`identity_fp` plus the trimmed `title`, `url`, `due` and `ts`; hence equal
`state_fp` forces all five to agree (so changing any of them changes the
fingerprint, and distinct identities give distinct state-hash inputs). -/
theorem state_fp_base_projection (a b : Models.Item) (h : a.state_fp = b.state_fp) :
    (a.state_fp.id = a.identity_fp ∧ a.state_fp.title = pyStrip a.title ∧
     a.state_fp.url = pyStrip a.url ∧ a.state_fp.due = pyStrip (a.due.getD "") ∧
     a.state_fp.ts = pyStrip (a.ts.getD ""))
    ∧ a.identity_fp = b.identity_fp
    ∧ pyStrip a.title = pyStrip b.title
    ∧ pyStrip a.url = pyStrip b.url
    ∧ pyStrip (a.due.getD "") = pyStrip (b.due.getD "")
    ∧ pyStrip (a.ts.getD "") = pyStrip (b.ts.getD "") := by
  refine ⟨⟨rfl, rfl, rfl, rfl, rfl⟩, ?_, ?_, ?_, ?_, ?_⟩
  · exact congrArg Models.StateFp.id h
  · exact congrArg Models.StateFp.title h
  · exact congrArg Models.StateFp.url h
  · exact congrArg Models.StateFp.due h
  · exact congrArg Models.StateFp.ts h

/-- Witness for `state_fp_base_projection` (reflexive instance at a concrete
item). -/
theorem state_fp_base_projection_witness :
    (let a : Models.Item :=
      { source := "announcement", course_id := "_1_1", course_name := "课",
        title := "t", url := "u", ts := some "2025-01-01" }
     (a.state_fp.id = a.identity_fp ∧ a.state_fp.title = pyStrip a.title ∧
      a.state_fp.url = pyStrip a.url ∧ a.state_fp.due = pyStrip (a.due.getD "") ∧
      a.state_fp.ts = pyStrip (a.ts.getD ""))
     ∧ a.identity_fp = a.identity_fp
     ∧ pyStrip a.title = pyStrip a.title
     ∧ pyStrip a.url = pyStrip a.url
     ∧ pyStrip (a.due.getD "") = pyStrip (a.due.getD "")
     ∧ pyStrip (a.ts.getD "") = pyStrip (a.ts.getD "")) :=
  state_fp_base_projection _ _ rfl

/-! ### C5 — state fingerprint: per-source projection -/

/-- C5 counterexample: two `grade_item` items that agree on every field of
the claim's grade_item projection (`category`, `status`, `grade_raw`,
`points_possible_raw`) and differ only in `due` — a field outside that
projection — nevertheless have different `state_fp`, refuting "changing a
field outside that source's projection does not change state_fp". -/
theorem state_fp_projection_counterexample :
    (let gi : Models.Item :=
      { source := "grade_item", course_id := "c1", course_name := "概率统计",
        title := "hw1", url := "http://x/1", due := some "2025-01-01",
        external_id := some "r1", raw := [("category", RawVal.str "作业")] }
     ({ gi with due := some "2025-01-02" } : Models.Item).state_fp ≠ gi.state_fp) := by
  decide

/-- C5 amended: for `grade_item` (resp. `assignment`) items, `state_fp`
equality holds exactly when the identity fingerprint, the trimmed
`title`/`url`/`due`/`ts`, and the claimed per-source raw fields
(`category`,`status`,`grade_raw`,`points_possible_raw` for grade_item;
online-submission flag, `submitted`, `submitted_at_raw`, `grade_raw`,
`points_possible_raw` for assignment) all agree: changing any of these
changes the fingerprint and changing anything else does not. -/
theorem state_fp_projection_amended (a b : Models.Item) :
    (pyStrip a.source = "grade_item" → pyStrip b.source = "grade_item" →
      (a.state_fp = b.state_fp ↔
        (a.identity_fp = b.identity_fp ∧ pyStrip a.title = pyStrip b.title ∧
         pyStrip a.url = pyStrip b.url ∧
         pyStrip (a.due.getD "") = pyStrip (b.due.getD "") ∧
         pyStrip (a.ts.getD "") = pyStrip (b.ts.getD "") ∧
         rawGet a.raw "category" (.str "") = rawGet b.raw "category" (.str "") ∧
         rawGet a.raw "status" (.str "") = rawGet b.raw "status" (.str "") ∧
         rawGet a.raw "grade_raw" (.str "") = rawGet b.raw "grade_raw" (.str "") ∧
         rawGet a.raw "points_possible_raw" (.str "")
           = rawGet b.raw "points_possible_raw" (.str ""))))
    ∧ (pyStrip a.source = "assignment" → pyStrip b.source = "assignment" →
      (a.state_fp = b.state_fp ↔
        (a.identity_fp = b.identity_fp ∧ pyStrip a.title = pyStrip b.title ∧
         pyStrip a.url = pyStrip b.url ∧
         pyStrip (a.due.getD "") = pyStrip (b.due.getD "") ∧
         pyStrip (a.ts.getD "") = pyStrip (b.ts.getD "") ∧
         (rawGet a.raw "is_online_submission" (.bool false)).truthy
           = (rawGet b.raw "is_online_submission" (.bool false)).truthy ∧
         rawGet a.raw "submitted" .null = rawGet b.raw "submitted" .null ∧
         rawGet a.raw "submitted_at_raw" (.str "")
           = rawGet b.raw "submitted_at_raw" (.str "") ∧
         rawGet a.raw "grade_raw" (.str "") = rawGet b.raw "grade_raw" (.str "") ∧
         rawGet a.raw "points_possible_raw" (.str "")
           = rawGet b.raw "points_possible_raw" (.str "")))) := by
  constructor
  · intro ha hb
    simp only [Models.Item.state_fp, ha, hb]
    simp [Models.StateFp.mk.injEq, Models.StateExt.grade_item.injEq]
  · intro ha hb
    simp only [Models.Item.state_fp, ha, hb]
    simp [Models.StateFp.mk.injEq, Models.StateExt.assignment.injEq]

/-- Witness for `state_fp_projection_amended` at two concrete items. -/
theorem state_fp_projection_amended_witness :
    (let a : Models.Item :=
      { source := "grade_item", course_id := "c1", course_name := "A",
        title := "hw1", url := "u", external_id := some "r1",
        raw := [("grade_raw", RawVal.str "95")] }
     let b : Models.Item := { a with course_name := "B" }
     (pyStrip a.source = "grade_item" → pyStrip b.source = "grade_item" →
      (a.state_fp = b.state_fp ↔
        (a.identity_fp = b.identity_fp ∧ pyStrip a.title = pyStrip b.title ∧
         pyStrip a.url = pyStrip b.url ∧
         pyStrip (a.due.getD "") = pyStrip (b.due.getD "") ∧
         pyStrip (a.ts.getD "") = pyStrip (b.ts.getD "") ∧
         rawGet a.raw "category" (.str "") = rawGet b.raw "category" (.str "") ∧
         rawGet a.raw "status" (.str "") = rawGet b.raw "status" (.str "") ∧
         rawGet a.raw "grade_raw" (.str "") = rawGet b.raw "grade_raw" (.str "") ∧
         rawGet a.raw "points_possible_raw" (.str "")
           = rawGet b.raw "points_possible_raw" (.str ""))))
     ∧ (pyStrip a.source = "assignment" → pyStrip b.source = "assignment" →
      (a.state_fp = b.state_fp ↔
        (a.identity_fp = b.identity_fp ∧ pyStrip a.title = pyStrip b.title ∧
         pyStrip a.url = pyStrip b.url ∧
         pyStrip (a.due.getD "") = pyStrip (b.due.getD "") ∧
         pyStrip (a.ts.getD "") = pyStrip (b.ts.getD "") ∧
         (rawGet a.raw "is_online_submission" (.bool false)).truthy
           = (rawGet b.raw "is_online_submission" (.bool false)).truthy ∧
         rawGet a.raw "submitted" .null = rawGet b.raw "submitted" .null ∧
         rawGet a.raw "submitted_at_raw" (.str "")
           = rawGet b.raw "submitted_at_raw" (.str "") ∧
         rawGet a.raw "grade_raw" (.str "") = rawGet b.raw "grade_raw" (.str "") ∧
         rawGet a.raw "points_possible_raw" (.str "")
           = rawGet b.raw "points_possible_raw" (.str ""))))) :=
  state_fp_projection_amended _ _

/-! ### Store lemmas (upsert frame, classification, row count) -/

theorem Store.rowOf_fp (now : String) (it : Models.Item) :
    (Store.rowOf now it).fp = it.identity_fp := rfl

theorem Store.conflictUpdate_fp (r x : Store.Row) :
    (Store.conflictUpdate r x).fp = r.fp := rfl

theorem Store.conflictUpdate_state_fp (r x : Store.Row) :
    (Store.conflictUpdate r x).state_fp = x.state_fp := rfl

theorem Store.sentPart_conflictUpdate (r x : Store.Row) :
    Store.sentPart (Store.conflictUpdate r x) = Store.sentPart r := rfl

theorem Store.length_le_upsertOne (now : String) (db : Store.DB) (it : Models.Item) :
    db.length ≤ (Store.upsertOne now db it).length := by
  simp only [Store.upsertOne]
  split <;> simp

theorem Store.sentPart_upsertOne_lt (now : String) (db : Store.DB) (it : Models.Item)
    (i : Nat) (h : i < db.length) :
    ((Store.upsertOne now db it)[i]?).map Store.sentPart
      = (db[i]?).map Store.sentPart := by
  simp only [Store.upsertOne]
  split
  · rw [List.getElem?_map]
    cases hdb : db[i]? with
    | none => rfl
    | some r =>
      by_cases hc : r.fp = (Store.rowOf now it).fp <;>
        simp [hc, Store.sentPart_conflictUpdate]
  · rw [List.getElem?_append_left h]

theorem Store.sentPart_upsertOne_ge (now : String) (db : Store.DB) (it : Models.Item)
    (i : Nat) (h : db.length ≤ i) :
    ∀ r, (Store.upsertOne now db it)[i]? = some r → Store.sentPart r = (none, none) := by
  simp only [Store.upsertOne]
  split
  · intro r hr
    rw [List.getElem?_map, List.getElem?_eq_none h] at hr
    simp at hr
  · intro r hr
    rw [List.getElem?_append_right h] at hr
    rcases Nat.eq_or_lt_of_le h with he | hl
    · rw [← he, Nat.sub_self] at hr
      simp only [List.getElem?_cons_zero, Option.some.injEq] at hr
      rw [← hr]
      rfl
    · rw [List.getElem?_eq_none (by simp; omega)] at hr
      simp at hr

theorem Store.length_le_upsertAll (now : String) (items : List Models.Item) :
    ∀ db : Store.DB, db.length ≤ (Store.upsertAll now db items).length := by
  induction items with
  | nil => intro db; exact Nat.le_refl _
  | cons it rest ih =>
    intro db
    exact Nat.le_trans (Store.length_le_upsertOne now db it) (ih (Store.upsertOne now db it))

theorem Store.sentPart_upsertAll_lt (now : String) (items : List Models.Item) :
    ∀ (db : Store.DB) (i : Nat), i < db.length →
      ((Store.upsertAll now db items)[i]?).map Store.sentPart
        = (db[i]?).map Store.sentPart := by
  induction items with
  | nil => intro db i _; rfl
  | cons it rest ih =>
    intro db i h
    have e : Store.upsertAll now db (it :: rest)
        = Store.upsertAll now (Store.upsertOne now db it) rest := rfl
    rw [e, ih (Store.upsertOne now db it) i
        (Nat.lt_of_lt_of_le h (Store.length_le_upsertOne now db it)),
      Store.sentPart_upsertOne_lt now db it i h]

theorem Store.sentPart_upsertAll_ge (now : String) (items : List Models.Item) :
    ∀ (db : Store.DB) (i : Nat), db.length ≤ i →
      ∀ r, (Store.upsertAll now db items)[i]? = some r →
        Store.sentPart r = (none, none) := by
  induction items with
  | nil =>
    intro db i h r hr
    have e : Store.upsertAll now db [] = db := rfl
    rw [e, List.getElem?_eq_none h] at hr
    simp at hr
  | cons it rest ih =>
    intro db i h r hr
    have e : Store.upsertAll now db (it :: rest)
        = Store.upsertAll now (Store.upsertOne now db it) rest := rfl
    rw [e] at hr
    by_cases h2 : i < (Store.upsertOne now db it).length
    · have hA := Store.sentPart_upsertAll_lt now rest (Store.upsertOne now db it) i h2
      rw [hr] at hA
      cases hdb : (Store.upsertOne now db it)[i]? with
      | none => rw [hdb] at hA; simp at hA
      | some r2 =>
        rw [hdb] at hA
        simp at hA
        rw [hA]
        exact Store.sentPart_upsertOne_ge now db it i h r2 hdb
    · exact ih (Store.upsertOne now db it) i (Nat.le_of_not_lt h2) r hr

theorem Store.existingState_upsertOne (now : String) (db : Store.DB) (it : Models.Item) :
    Store.existingState (Store.upsertOne now db it) it.identity_fp = some it.state_fp := by
  simp only [Store.upsertOne]
  by_cases hex : db.any (fun r => decide (r.fp = (Store.rowOf now it).fp)) = true
  · rw [if_pos hex]
    unfold Store.existingState
    rw [← List.map_reverse, List.find?_map]
    have hpf : ((fun r => decide (r.fp = it.identity_fp)) ∘
        fun r => if r.fp = (Store.rowOf now it).fp
          then Store.conflictUpdate r (Store.rowOf now it) else r)
        = fun r => decide (r.fp = it.identity_fp) := by
      funext r
      by_cases hc : r.fp = (Store.rowOf now it).fp
      · simp [hc, Store.conflictUpdate_fp, Store.rowOf_fp]
      · simp [hc]
    rw [hpf]
    have hsome : (db.reverse.find? (fun r => decide (r.fp = it.identity_fp))).isSome = true := by
      rw [List.find?_isSome]
      rw [List.any_eq_true] at hex
      obtain ⟨r, hr, hp⟩ := hex
      exact ⟨r, List.mem_reverse.mpr hr, hp⟩
    obtain ⟨r, hr⟩ := Option.isSome_iff_exists.mp hsome
    rw [hr]
    have hfp : r.fp = it.identity_fp := by simpa using List.find?_some hr
    simp [Option.map, hfp, Store.rowOf_fp, Store.conflictUpdate_state_fp, Store.rowOf]
  · rw [if_neg hex]
    unfold Store.existingState
    rw [List.reverse_append]
    simp [List.find?_cons, Store.rowOf]

theorem Store.countFp_upsertOne (now : String) (db : Store.DB) (it : Models.Item) :
    Store.countFp (Store.upsertOne now db it) it.identity_fp
      = if Store.countFp db it.identity_fp = 0 then 1
        else Store.countFp db it.identity_fp := by
  simp only [Store.upsertOne, Store.countFp]
  by_cases hex : db.any (fun r => decide (r.fp = (Store.rowOf now it).fp)) = true
  · rw [if_pos hex, List.filter_map]
    have hpf : ((fun r => decide (r.fp = it.identity_fp)) ∘
        fun r => if r.fp = (Store.rowOf now it).fp
          then Store.conflictUpdate r (Store.rowOf now it) else r)
        = fun r => decide (r.fp = it.identity_fp) := by
      funext r
      by_cases hc : r.fp = (Store.rowOf now it).fp
      · simp [hc, Store.conflictUpdate_fp, Store.rowOf_fp]
      · simp [hc]
    rw [hpf, List.length_map]
    have hpos : (db.filter (fun r => decide (r.fp = it.identity_fp))).length ≠ 0 := by
      rw [List.any_eq_true] at hex
      obtain ⟨r, hr, hp⟩ := hex
      have : r ∈ db.filter (fun r => decide (r.fp = it.identity_fp)) :=
        List.mem_filter.mpr ⟨hr, hp⟩
      intro h0
      rw [List.length_eq_zero] at h0
      simp [h0] at this
    rw [if_neg hpos]
  · rw [if_neg hex, List.filter_append]
    have h0 : db.filter (fun r => decide (r.fp = it.identity_fp)) = [] := by
      rw [List.filter_eq_nil_iff]
      intro r hr
      intro hp
      exact hex (List.any_eq_true.mpr ⟨r, hr, hp⟩)
    simp [h0, Store.rowOf_fp]

/-! ### Migration backfill lemmas -/

theorem Store.migrateRow_fp (r : Store.Row) :
    (Store.migrateRow r).fp = r.fp := by
  unfold Store.migrateRow
  split <;> rfl

theorem Store.migrateRow_state_fp (r : Store.Row) :
    (Store.migrateRow r).state_fp = r.state_fp := by
  unfold Store.migrateRow
  split <;> rfl

theorem Store.countFp_migrate (db : Store.DB) (fp : Models.IdentityFp) :
    Store.countFp (Store.migrate db) fp = Store.countFp db fp := by
  unfold Store.countFp Store.migrate
  rw [List.filter_map]
  have hpf : ((fun r => decide (r.fp = fp)) ∘ Store.migrateRow)
      = fun r => decide (r.fp = fp) := by
    funext r
    simp [Store.migrateRow_fp]
  rw [hpf, List.length_map]

theorem Store.existingState_migrate (db : Store.DB) (fp : Models.IdentityFp) :
    Store.existingState (Store.migrate db) fp = Store.existingState db fp := by
  unfold Store.existingState Store.migrate
  rw [← List.map_reverse, List.find?_map]
  have hpf : ((fun r => decide (r.fp = fp)) ∘ Store.migrateRow)
      = fun r => decide (r.fp = fp) := by
    funext r
    simp [Store.migrateRow_fp]
  rw [hpf]
  cases h : db.reverse.find? (fun r => decide (r.fp = fp)) with
  | none => rfl
  | some r => simp [Store.migrateRow_state_fp]

theorem Store.migrate_eq_self (db : Store.DB)
    (h : ∀ r ∈ db, ¬(r.sent_state_fp = none ∧ r.sent_at ≠ none)) :
    Store.migrate db = db := by
  induction db with
  | nil => rfl
  | cons r rest ih =>
    unfold Store.migrate at ih ⊢
    rw [List.map_cons, ih (fun x hx => h x (List.mem_cons_of_mem r hx))]
    have hr : Store.migrateRow r = r := by
      unfold Store.migrateRow
      rw [if_neg (h r (List.mem_cons_self r rest))]
    rw [hr]

/-! ### C1 — upsert and the `sent_state_fp` / `sent_at` columns -/

/-- C1 counterexample: `upsert_seen` is not the identity on `sent_state_fp`.
Every store operation first runs `_migrate_items_table`, whose backfill
(store.py lines 64-67) sets `sent_state_fp := state_fp` on any row with
`sent_at` non-empty and `sent_state_fp` empty — exactly the state `mark_sent`
leaves behind. Upserting one (unrelated) item over such a row changes the
row's `sent_state_fp` from empty to its `state_fp`, refuting "`upsert_seen`
never modifies `sent_state_fp`" and "only an explicit `mark_notified` or
`ack_state` call changes `sent_state_fp`". -/
theorem upsert_sent_backfill_counterexample :
    (let itA : Models.Item :=
      { source := "announcement", course_id := "c", course_name := "课",
        title := "a", url := "ua", external_id := some "e1" }
     let itB : Models.Item := { itA with external_id := some "e2" }
     let row : Store.Row := { Store.rowOf "t0" itA with sent_at := some "t0" }
     row.sent_state_fp = none
     ∧ (Store.upsert_seen "t1" [row] [itB]).head?.map Store.Row.sent_state_fp
        = some (some itA.state_fp)) := by
  constructor
  · decide
  · decide

/-- C1 amended: apart from the `_migrate_items_table` backfill that every
store operation (including `upsert_seen`) runs first — which sets
`sent_state_fp := state_fp` exactly on rows with `sent_at` non-empty and
`sent_state_fp` empty, and is the identity on stores with no such legacy
rows — `upsert_seen` never modifies `sent_state_fp` or `sent_at`: relative
to the migrated table, every pre-existing row keeps its sent columns and
every newly inserted row gets both empty (and an empty item list returns
before touching the store at all); `mark_notified` (resp. `ack_state`) are
the operations that set `sent_state_fp` with (resp. without) `sent_at` on
the matching rows, leaving all other rows of the migrated table unchanged. -/
theorem upsert_seen_sent_columns (now : String) (db : Store.DB)
    (items : List Models.Item) (pair : Models.IdentityFp × Models.StateFp) (i : Nat) :
    (items ≠ [] → i < db.length →
      ((Store.upsert_seen now db items)[i]?).map Store.sentPart
        = ((Store.migrate db)[i]?).map Store.sentPart)
    ∧ (items ≠ [] → db.length ≤ i →
        ∀ r, (Store.upsert_seen now db items)[i]? = some r →
          Store.sentPart r = (none, none))
    ∧ (items = [] → Store.upsert_seen now db items = db)
    ∧ ((Store.migrate db)[i]?
        = (db[i]?).map (fun r =>
            if r.sent_state_fp = none ∧ r.sent_at ≠ none
            then { r with sent_state_fp := some r.state_fp } else r))
    ∧ ((∀ r ∈ db, ¬(r.sent_state_fp = none ∧ r.sent_at ≠ none)) →
        Store.migrate db = db)
    ∧ ((Store.mark_notified now db [pair])[i]?
        = ((Store.migrate db)[i]?).map (fun r =>
            if r.fp = pair.1
            then { r with sent_at := some now, sent_state_fp := some pair.2 }
            else r))
    ∧ ((Store.ack_state db [pair])[i]?
        = ((Store.migrate db)[i]?).map (fun r =>
            if r.fp = pair.1 then { r with sent_state_fp := some pair.2 } else r)) := by
  refine ⟨?_, ?_, ?_, ?_, Store.migrate_eq_self db, ?_, ?_⟩
  · intro hne h
    have e : Store.upsert_seen now db items = Store.upsertAll now (Store.migrate db) items := by
      unfold Store.upsert_seen
      rw [if_neg hne]
    rw [e]
    exact Store.sentPart_upsertAll_lt now items (Store.migrate db) i
      (by rw [show (Store.migrate db).length = db.length from List.length_map _ _]; exact h)
  · intro hne h
    have e : Store.upsert_seen now db items = Store.upsertAll now (Store.migrate db) items := by
      unfold Store.upsert_seen
      rw [if_neg hne]
    rw [e]
    exact Store.sentPart_upsertAll_ge now items (Store.migrate db) i
      (by rw [show (Store.migrate db).length = db.length from List.length_map _ _]; exact h)
  · intro he
    unfold Store.upsert_seen
    rw [if_pos he]
  · unfold Store.migrate
    rw [List.getElem?_map]
    rfl
  · show ((Store.migrate db).map fun r =>
        if r.fp = pair.1
        then { r with sent_at := some now, sent_state_fp := some pair.2 }
        else r)[i]? = _
    rw [List.getElem?_map]
  · show ((Store.migrate db).map fun r =>
        if r.fp = pair.1 then { r with sent_state_fp := some pair.2 } else r)[i]? = _
    rw [List.getElem?_map]

/-- Witness for `upsert_seen_sent_columns`: a concrete two-row store (one
legacy row with `sent_at` set and `sent_state_fp` empty, one fresh row), one
upserted item and index 0. -/
theorem upsert_seen_sent_columns_witness :
    (let itA : Models.Item :=
      { source := "announcement", course_id := "c", course_name := "课",
        title := "a", url := "ua", external_id := some "e1" }
     let itB : Models.Item := { itA with external_id := some "e2" }
     let db : Store.DB :=
      [{ Store.rowOf "t0" itA with sent_at := some "t0" }, Store.rowOf "t0" itB]
     let pair := (itA.identity_fp, itA.state_fp)
     (([itB] : List Models.Item) ≠ [] → 0 < db.length →
      ((Store.upsert_seen "t1" db [itB])[0]?).map Store.sentPart
        = ((Store.migrate db)[0]?).map Store.sentPart)
     ∧ (([itB] : List Models.Item) ≠ [] → db.length ≤ 0 →
        ∀ r, (Store.upsert_seen "t1" db [itB])[0]? = some r →
          Store.sentPart r = (none, none))
     ∧ (([itB] : List Models.Item) = [] → Store.upsert_seen "t1" db [itB] = db)
     ∧ ((Store.migrate db)[0]?
        = (db[0]?).map (fun r =>
            if r.sent_state_fp = none ∧ r.sent_at ≠ none
            then { r with sent_state_fp := some r.state_fp } else r))
     ∧ ((∀ r ∈ db, ¬(r.sent_state_fp = none ∧ r.sent_at ≠ none)) →
        Store.migrate db = db)
     ∧ ((Store.mark_notified "t1" db [pair])[0]?
        = ((Store.migrate db)[0]?).map (fun r =>
            if r.fp = pair.1
            then { r with sent_at := some "t1", sent_state_fp := some pair.2 }
            else r))
     ∧ ((Store.ack_state db [pair])[0]?
        = ((Store.migrate db)[0]?).map (fun r =>
            if r.fp = pair.1 then { r with sent_state_fp := some pair.2 } else r))) := by
  intro itA itB db pair
  exact upsert_seen_sent_columns "t1" db [itB] pair 0

/-! ### C6 — store round-trip and idempotence -/

/-- C6: after `upsert_seen([item])`, `bulk_classify([item])` on the same
store puts the item in the `unchanged` partition; an item with the same
identity but different `state_fp` (e.g. a tracked field mutated) lands in
the `updated` partition; and upserting the identical item a second time
leaves exactly one persisted row for that identity (assuming the PRIMARY
KEY invariant — at most one prior row per fp). -/
theorem upsert_classify_roundtrip (now now' : String) (db : Store.DB)
    (item item' : Models.Item)
    (hdup : Store.countFp db item.identity_fp ≤ 1)
    (hid : item'.identity_fp = item.identity_fp)
    (hst : item'.state_fp ≠ item.state_fp) :
    Store.bulk_classify (Store.upsert_seen now db [item]) [item] = ([], [], [item])
    ∧ Store.bulk_classify (Store.upsert_seen now db [item]) [item'] = ([], [item'], [])
    ∧ Store.countFp (Store.upsert_seen now' (Store.upsert_seen now db [item]) [item])
        item.identity_fp = 1 := by
  have e1 : Store.upsert_seen now db [item] = Store.upsertOne now (Store.migrate db) item := rfl
  have hex := Store.existingState_upsertOne now (Store.migrate db) item
  refine ⟨?_, ?_, ?_⟩
  · show (Store.byFp [item]).foldl _ ([], [], []) = ([], [], [item])
    have eby : Store.byFp [item] = [(item.identity_fp, item)] := rfl
    rw [eby]
    show (match Store.existingState (Store.migrate (Store.upsert_seen now db [item]))
        item.identity_fp with
      | none => (([] : List Models.Item) ++ [item], ([] : List Models.Item), ([] : List Models.Item))
      | some st =>
        if st ≠ item.state_fp then ([], [] ++ [item], [])
        else ([], [], [] ++ [item])) = ([], [], [item])
    rw [Store.existingState_migrate, e1, hex]
    simp
  · show (Store.byFp [item']).foldl _ ([], [], []) = ([], [item'], [])
    have eby : Store.byFp [item'] = [(item'.identity_fp, item')] := rfl
    rw [eby]
    show (match Store.existingState (Store.migrate (Store.upsert_seen now db [item]))
        item'.identity_fp with
      | none => (([] : List Models.Item) ++ [item'], ([] : List Models.Item), ([] : List Models.Item))
      | some st =>
        if st ≠ item'.state_fp then ([], [] ++ [item'], [])
        else ([], [], [] ++ [item'])) = ([], [item'], [])
    rw [Store.existingState_migrate, hid, e1, hex]
    simp only []
    rw [if_pos (fun he => hst (he.symm))]
    rfl
  · have e2 : Store.upsert_seen now' (Store.upsert_seen now db [item]) [item]
        = Store.upsertOne now'
            (Store.migrate (Store.upsertOne now (Store.migrate db) item)) item := rfl
    rw [e2, Store.countFp_upsertOne, Store.countFp_migrate]
    have hc1 : Store.countFp (Store.upsertOne now (Store.migrate db) item)
        item.identity_fp = 1 := by
      rw [Store.countFp_upsertOne, Store.countFp_migrate]
      split <;> omega
    rw [hc1]
    simp

/-- Witness for `upsert_classify_roundtrip`: an empty store, a concrete
grade item, and the same item with its `grade_raw` (a tracked field of the
grade_item projection) mutated. -/
theorem upsert_classify_roundtrip_witness :
    (let item : Models.Item :=
      { source := "grade_item", course_id := "c1", course_name := "课",
        title := "hw1", url := "u1", external_id := some "r1",
        raw := [("category", RawVal.str "作业"), ("grade_raw", RawVal.str "-")] }
     let item' : Models.Item :=
      { item with raw := [("category", RawVal.str "作业"), ("grade_raw", RawVal.str "95")] }
     Store.bulk_classify (Store.upsert_seen "t0" [] [item]) [item] = ([], [], [item])
     ∧ Store.bulk_classify (Store.upsert_seen "t0" [] [item]) [item'] = ([], [item'], [])
     ∧ Store.countFp (Store.upsert_seen "t1" (Store.upsert_seen "t0" [] [item]) [item])
        item.identity_fp = 1) := by
  intro item item'
  exact upsert_classify_roundtrip "t0" "t1" [] item item'
    (by decide) (by decide) (by decide)

/-! ### C8 — delivery-batch ordering -/

theorem chListLe_total : ∀ a b : List Char, chListLe a b = true ∨ chListLe b a = true := by
  intro a
  induction a with
  | nil => intro b; left; rfl
  | cons x xs ih =>
    intro b
    cases b with
    | nil => right; rfl
    | cons y ys =>
      by_cases h1 : x.toNat < y.toNat
      · left; simp [chListLe, h1]
      · by_cases h2 : x.toNat = y.toNat
        · rcases ih ys with h | h
          · left; simp [chListLe, h1, h2, h]
          · right
            have h1' : ¬ y.toNat < x.toNat := by omega
            simp [chListLe, h1', h2.symm, h]
        · right
          have h3 : y.toNat < x.toNat := by omega
          simp [chListLe, h3]

theorem chListLe_trans : ∀ a b c : List Char,
    chListLe a b = true → chListLe b c = true → chListLe a c = true := by
  intro a
  induction a with
  | nil => intro b c _ _; rfl
  | cons x xs ih =>
    intro b c hab hbc
    cases b with
    | nil => simp [chListLe] at hab
    | cons y ys =>
      cases c with
      | nil => simp [chListLe] at hbc
      | cons z zs =>
        simp only [chListLe] at hab hbc ⊢
        by_cases hxy : x.toNat < y.toNat
        · by_cases hyz : y.toNat < z.toNat
          · have hlt : x.toNat < z.toNat := by omega
            simp [hlt]
          · by_cases hyz2 : y.toNat = z.toNat
            · have hlt : x.toNat < z.toNat := by omega
              simp [hlt]
            · simp [hyz, hyz2] at hbc
        · by_cases hxy2 : x.toNat = y.toNat
          · rw [if_neg hxy, if_pos hxy2] at hab
            by_cases hyz : y.toNat < z.toNat
            · have hlt : x.toNat < z.toNat := by omega
              simp [hlt]
            · by_cases hyz2 : y.toNat = z.toNat
              · rw [if_neg hyz, if_pos hyz2] at hbc
                have hxz : x.toNat = z.toNat := by omega
                have hnlt : ¬ x.toNat < z.toNat := by omega
                rw [if_neg hnlt, if_pos hxz]
                exact ih ys zs hab hbc
              · simp [hyz, hyz2] at hbc
          · simp [hxy, hxy2] at hab

theorem pendingLE_total : ∀ a b : Main.Pending,
    Main.pendingLE a b ∨ Main.pendingLE b a := by
  intro a b
  rcases Nat.lt_trichotomy a.1 b.1 with h | h | h
  · right; exact Or.inl h
  · rcases chListLe_total a.2.1.toList b.2.1.toList with hc | hc
    · left; exact Or.inr ⟨h, hc⟩
    · right; exact Or.inr ⟨h.symm, hc⟩
  · left; exact Or.inl h

theorem pendingLE_trans : ∀ a b c : Main.Pending,
    Main.pendingLE a b → Main.pendingLE b c → Main.pendingLE a c := by
  intro a b c hab hbc
  rcases hab with h1 | ⟨h1, hc1⟩ <;> rcases hbc with h2 | ⟨h2, hc2⟩
  · exact Or.inl (by omega)
  · exact Or.inl (by omega)
  · exact Or.inl (by omega)
  · exact Or.inr ⟨by omega, chListLe_trans _ _ _ hc1 hc2⟩

/-- C8 counterexample: with one never-notified entry (tier 100) and one
update entry (tier 200), the sort `key=lambda t: (-t[0], t[1])` puts the
tier-200 update FIRST, so a "new" item does not precede an "updated" one —
the code's order is the reverse of the claim's. -/
theorem pending_sort_counterexample :
    Main.sortPending
        [(100, "a", "sa", ⟨"tn", "bn", ""⟩), (200, "b", "sb", ⟨"tu", "bu", ""⟩)]
      = [(200, "b", "sb", ⟨"tu", "bu", ""⟩), (100, "a", "sa", ⟨"tn", "bn", ""⟩)]
    ∧ (Main.sortPending
        [(100, "a", "sa", ⟨"tn", "bn", ""⟩), (200, "b", "sb", ⟨"tu", "bu", ""⟩)]).head?
        ≠ some (100, "a", "sa", ⟨"tn", "bn", ""⟩) := by
  constructor
  · decide
  · decide

/-- C8 amended: after `pending.sort(key=lambda t: (-t[0], t[1]))`, every
"updated" entry (tier 200) precedes every "new" entry (tier 100) — i.e.
priorities are non-increasing — and entries of equal tier are ordered by fp
hex ascending; the sorted list is a permutation of the input; and the items
sent are exactly the first `limit` elements of that order (all of it when
`limit ≤ 0`). -/
theorem pending_sort_order (pending : List Main.Pending) (limit : Int) :
    (Main.sortPending pending).Pairwise
      (fun a b => a.1 ≥ b.1 ∧ (a.1 = b.1 → pyStrLe a.2.1 b.2.1 = true))
    ∧ (Main.sortPending pending).Perm pending
    ∧ Main.toSend limit (Main.sortPending pending) <+: Main.sortPending pending
    ∧ (0 < limit →
        Main.toSend limit (Main.sortPending pending)
          = (Main.sortPending pending).take limit.toNat)
    ∧ (limit ≤ 0 →
        Main.toSend limit (Main.sortPending pending) = Main.sortPending pending) := by
  have hs : (Main.sortPending pending).Sorted Main.pendingLE :=
    @List.sorted_insertionSort _ Main.pendingLE _ ⟨pendingLE_total⟩
      ⟨pendingLE_trans⟩ pending
  refine ⟨?_, List.perm_insertionSort _ _, ?_, ?_, ?_⟩
  · refine hs.imp ?_
    intro a b hab
    rcases hab with h | ⟨h, hc⟩
    · exact ⟨Nat.le_of_lt h, fun he => absurd he (by omega)⟩
    · exact ⟨Nat.le_of_eq h.symm, fun _ => hc⟩
  · unfold Main.toSend
    split
    · exact List.take_prefix _ _
    · exact List.prefix_refl _
  · intro h
    unfold Main.toSend
    rw [if_pos h]
  · intro h
    unfold Main.toSend
    rw [if_neg (by omega)]

/-- Witness for `pending_sort_order` at a concrete pending list and limit. -/
theorem pending_sort_order_witness :
    (let pending : List Main.Pending :=
      [(100, "a", "sa", ⟨"tn", "bn", ""⟩), (200, "b", "sb", ⟨"tu", "bu", ""⟩)]
     (Main.sortPending pending).Pairwise
      (fun a b => a.1 ≥ b.1 ∧ (a.1 = b.1 → pyStrLe a.2.1 b.2.1 = true))
     ∧ (Main.sortPending pending).Perm pending
     ∧ Main.toSend 1 (Main.sortPending pending) <+: Main.sortPending pending
     ∧ (0 < (1 : Int) →
        Main.toSend 1 (Main.sortPending pending)
          = (Main.sortPending pending).take (1 : Int).toNat)
     ∧ ((1 : Int) ≤ 0 →
        Main.toSend 1 (Main.sortPending pending) = Main.sortPending pending)) :=
  pending_sort_order _ 1

/-! ### C2 — per-item notification decision of the `--run` loop -/

theorem message_for_new_item_isSome (it : Models.Item)
    (hsrc : it.source = "announcement" ∨ it.source = "teaching_content"
      ∨ it.source = "assignment" ∨ it.source = "grade_item") :
    (Notify.message_for_new_item it).isSome = true := by
  rcases hsrc with h | h | h | h
  · have hps : pyStrip it.source = "announcement" := by rw [h]; decide
    simp [Notify.message_for_new_item, hps]
  · have hps : pyStrip it.source = "teaching_content" := by rw [h]; decide
    simp [Notify.message_for_new_item, hps]
  · have hps : pyStrip it.source = "assignment" := by rw [h]; decide
    simp [Notify.message_for_new_item, hps]
  · have hps : pyStrip it.source = "grade_item" := by rw [h]; decide
    simp [Notify.message_for_new_item, hps]

/-- C2: the decision for one item in a run. With `sent_state_fp` empty
(record absent or a previously failed send) a "new item" message is always
produced (it exists for each of the four sources) and enqueued at tier 100;
with `sent_state_fp` equal to the current `state_fp` the item is suppressed;
otherwise an update push (tier 200) happens only for `grade_item`/
`assignment` sources, and any other source is acknowledged silently with its
`(fp, state_fp)` pair. -/
theorem run_decision (it : Models.Item) (rec : Option Store.FetchedRec)
    (hsrc : it.source = "announcement" ∨ it.source = "teaching_content"
      ∨ it.source = "assignment" ∨ it.source = "grade_item") :
    (rec.bind (·.sent_state_fp) = none →
      (Notify.message_for_new_item it).isSome = true ∧
      ∀ msg, Notify.message_for_new_item it = some msg →
        Main.runStep it rec = .push 100 it.identity_fp it.state_fp msg)
    ∧ (∀ sent, rec.bind (·.sent_state_fp) = some sent → sent = it.state_fp →
        Main.runStep it rec = .skip)
    ∧ (∀ sent, rec.bind (·.sent_state_fp) = some sent → sent ≠ it.state_fp →
        (¬(it.source = "grade_item" ∨ it.source = "assignment") →
          Main.runStep it rec = .ack it.identity_fp it.state_fp)
        ∧ (∀ prio fp sfp msg, Main.runStep it rec = .push prio fp sfp msg →
            (it.source = "grade_item" ∨ it.source = "assignment") ∧ prio = 200
              ∧ fp = it.identity_fp ∧ sfp = it.state_fp
              ∧ Notify.message_for_updated_item it ((rec.map (·.raw)).getD []) = some msg)
        ∧ ((it.source = "grade_item" ∨ it.source = "assignment") →
            Notify.message_for_updated_item it ((rec.map (·.raw)).getD []) = none →
            Main.runStep it rec = .ack it.identity_fp it.state_fp)) := by
  refine ⟨?_, ?_, ?_⟩
  · intro h0
    refine ⟨message_for_new_item_isSome it hsrc, ?_⟩
    intro msg hmsg
    simp [Main.runStep, h0, hmsg]
  · intro sent h0 he
    simp [Main.runStep, h0, he]
  · intro sent h0 hne
    refine ⟨?_, ?_, ?_⟩
    · intro hns
      simp [Main.runStep, h0, hne, hns]
    · intro prio fp sfp msg hpush
      by_cases hs2 : it.source = "grade_item" ∨ it.source = "assignment"
      · cases hm : Notify.message_for_updated_item it ((rec.map (·.raw)).getD []) with
        | some m =>
          simp [Main.runStep, h0, hne, hs2, hm] at hpush
          obtain ⟨h1, h2, h3, h4⟩ := hpush
          exact ⟨hs2, h1.symm, h2.symm, h3.symm, by simp only [hm, h4]⟩
        | none => simp [Main.runStep, h0, hne, hs2, hm] at hpush
      · simp [Main.runStep, h0, hne, hs2] at hpush
    · intro hs2 hm
      simp [Main.runStep, h0, hne, hs2, hm]

/-- Witness for `run_decision`: a concrete grade item with a stored record
acknowledged at a different state. -/
theorem run_decision_witness :
    (let it : Models.Item :=
      { source := "grade_item", course_id := "c1", course_name := "课",
        title := "hw1", url := "u1", external_id := some "r1",
        raw := [("grade_raw", RawVal.str "95")] }
     let rec0 : Option Store.FetchedRec := none
     (rec0.bind (·.sent_state_fp) = none →
      (Notify.message_for_new_item it).isSome = true ∧
      ∀ msg, Notify.message_for_new_item it = some msg →
        Main.runStep it rec0 = .push 100 it.identity_fp it.state_fp msg)
     ∧ (∀ sent, rec0.bind (·.sent_state_fp) = some sent → sent = it.state_fp →
        Main.runStep it rec0 = .skip)
     ∧ (∀ sent, rec0.bind (·.sent_state_fp) = some sent → sent ≠ it.state_fp →
        (¬(it.source = "grade_item" ∨ it.source = "assignment") →
          Main.runStep it rec0 = .ack it.identity_fp it.state_fp)
        ∧ (∀ prio fp sfp msg, Main.runStep it rec0 = .push prio fp sfp msg →
            (it.source = "grade_item" ∨ it.source = "assignment") ∧ prio = 200
              ∧ fp = it.identity_fp ∧ sfp = it.state_fp
              ∧ Notify.message_for_updated_item it ((rec0.map (·.raw)).getD []) = some msg)
        ∧ ((it.source = "grade_item" ∨ it.source = "assignment") →
            Notify.message_for_updated_item it ((rec0.map (·.raw)).getD []) = none →
            Main.runStep it rec0 = .ack it.identity_fp it.state_fp))) := by
  intro it rec0
  exact run_decision it rec0 (by right; right; right; rfl)

/-! ### C3 — grade_item update diff decision -/

theorem gi_diffs_length_le (o n : RawMap) : (Notify.gi_diffs o n).length ≤ 4 := by
  unfold Notify.gi_diffs
  split_ifs <;> simp

theorem gi_diffs_eq_nil_iff (o n : RawMap) :
    Notify.gi_diffs o n = []
      ↔ (Notify.gi_points o = Notify.gi_points n ∧ Notify.gi_due o = Notify.gi_due n
          ∧ Notify.gi_status o = Notify.gi_status n ∧ Notify.gi_cat o = Notify.gi_cat n) := by
  constructor
  · intro h
    unfold Notify.gi_diffs at h
    split_ifs at h with c1 c2 c3 c4 <;> simp_all
  · intro ⟨h1, h2, h3, h4⟩
    unfold Notify.gi_diffs
    simp [h1, h2, h3, h4]

/-- C3: the grade_item update decision. Old grade missing (empty / `-` /
`—`) and new grade present → a "grade posted" message (`作业出分` for the
`作业` category, `成绩出分` otherwise); otherwise a changed grade value → a
"grade changed" message whose body shows the old grade (`原成绩: old/points`)
and the new one (`新成绩: new/points`); otherwise a bounded (≤ 6, in fact
≤ 4) list of diff lines for exactly the tracked fields (points, due, status,
category) that differ, and suppression (`none`) when none differs. The
spec's concrete examples `"-" → "95"` (category `作业`) and `"95" → "98"`
evaluate to the exact grade-posted / grade-changed messages. -/
theorem grade_update_decision (it : Models.Item) (old_raw : RawMap)
    (hsrc : pyStrip it.source = "grade_item") :
    (Notify.is_missing_grade (Notify.gi_grade old_raw) = true →
      Notify.is_missing_grade (Notify.gi_grade it.raw) = false →
      ∃ lines, Notify.message_for_updated_item it old_raw
        = some (Notify.build_bark_message
            (if Notify.gi_cat it.raw = "作业" ∨ Notify.gi_cat old_raw = "作业"
              then "作业出分" else "成绩出分")
            (pyStrip it.course_name) (pyStrip it.title) (pyStrip it.url) lines))
    ∧ (¬(Notify.is_missing_grade (Notify.gi_grade old_raw) = true
          ∧ Notify.is_missing_grade (Notify.gi_grade it.raw) = false) →
        Notify.gi_grade old_raw ≠ Notify.gi_grade it.raw →
        ∃ lines, Notify.message_for_updated_item it old_raw
          = some (Notify.build_bark_message
              (if Notify.gi_cat it.raw = "作业" ∨ Notify.gi_cat old_raw = "作业"
                then "作业成绩变动" else "成绩变动")
              (pyStrip it.course_name) (pyStrip it.title) (pyStrip it.url) lines)
          ∧ Notify.rstripSlash
              ("原成绩: " ++ Notify.gi_grade old_raw ++ "/" ++ Notify.gi_points old_raw)
              ∈ lines
          ∧ Notify.rstripSlash
              ("新成绩: " ++ Notify.gi_grade it.raw ++ "/" ++ Notify.gi_points it.raw)
              ∈ lines)
    ∧ (Notify.gi_grade old_raw = Notify.gi_grade it.raw →
        ((Notify.gi_points old_raw = Notify.gi_points it.raw
            ∧ Notify.gi_due old_raw = Notify.gi_due it.raw
            ∧ Notify.gi_status old_raw = Notify.gi_status it.raw
            ∧ Notify.gi_cat old_raw = Notify.gi_cat it.raw) →
          Notify.message_for_updated_item it old_raw = none)
        ∧ (¬(Notify.gi_points old_raw = Notify.gi_points it.raw
            ∧ Notify.gi_due old_raw = Notify.gi_due it.raw
            ∧ Notify.gi_status old_raw = Notify.gi_status it.raw
            ∧ Notify.gi_cat old_raw = Notify.gi_cat it.raw) →
          Notify.message_for_updated_item it old_raw
            = some (Notify.build_bark_message "成绩项更新"
                (pyStrip it.course_name) (pyStrip it.title) (pyStrip it.url)
                ((Notify.gi_diffs old_raw it.raw).take 6))
            ∧ (Notify.gi_diffs old_raw it.raw).length ≤ 4))
    ∧ Notify.message_for_updated_item
        { source := "grade_item", course_id := "c1",
          course_name := "信息学中的概率统计", title := "hw1", url := "u1",
          external_id := some "r1",
          raw := [("category", RawVal.str "作业"), ("grade_raw", RawVal.str "95"),
                  ("points_possible_raw", RawVal.str "100")] }
        [("category", RawVal.str "作业"), ("grade_raw", RawVal.str "-"),
         ("points_possible_raw", RawVal.str "100")]
      = some ⟨"[信息学中的概率统计] 作业出分", "hw1\n类别: 作业\n成绩: 95/100", "u1"⟩
    ∧ Notify.message_for_updated_item
        { source := "grade_item", course_id := "c1",
          course_name := "信息学中的概率统计", title := "hw1", url := "u1",
          external_id := some "r1",
          raw := [("category", RawVal.str "作业"), ("grade_raw", RawVal.str "98"),
                  ("points_possible_raw", RawVal.str "100")] }
        [("category", RawVal.str "作业"), ("grade_raw", RawVal.str "95"),
         ("points_possible_raw", RawVal.str "100")]
      = some ⟨"[信息学中的概率统计] 作业成绩变动",
          "hw1\n类别: 作业\n原成绩: 95/100\n新成绩: 98/100", "u1"⟩ := by
  refine ⟨?_, ?_, ?_, by decide, by decide⟩
  · intro hmiss hpres
    have hcond : Notify.is_missing_grade (Notify.gi_grade old_raw) = true
        ∧ ¬ Notify.is_missing_grade (Notify.gi_grade it.raw) = true :=
      ⟨hmiss, fun hc => by rw [hpres] at hc; exact Bool.false_ne_true hc⟩
    refine ⟨(if Notify.gi_cat it.raw ≠ "" then ["类别: " ++ Notify.gi_cat it.raw] else [])
        ++ [Notify.rstripSlash ("成绩: " ++ Notify.gi_grade it.raw ++ "/" ++ Notify.gi_points it.raw)]
        ++ (if Notify.gi_due it.raw ≠ "" then ["到期: " ++ Notify.hmOr (Notify.gi_due it.raw)] else [])
        ++ (if Notify.gi_status it.raw ≠ "" then ["状态: " ++ Notify.gi_status it.raw] else []), ?_⟩
    simp only [Notify.message_for_updated_item, hsrc]
    rw [if_pos trivial, if_pos hcond]
  · intro hnA hne
    have hnA' : ¬(Notify.is_missing_grade (Notify.gi_grade old_raw) = true
        ∧ ¬ Notify.is_missing_grade (Notify.gi_grade it.raw) = true) :=
      fun ⟨h1, h2⟩ => hnA ⟨h1, by simpa using h2⟩
    refine ⟨(if Notify.gi_cat it.raw ≠ "" then ["类别: " ++ Notify.gi_cat it.raw] else [])
        ++ [Notify.rstripSlash ("原成绩: " ++ Notify.gi_grade old_raw ++ "/" ++ Notify.gi_points old_raw)]
        ++ [Notify.rstripSlash ("新成绩: " ++ Notify.gi_grade it.raw ++ "/" ++ Notify.gi_points it.raw)]
        ++ (if Notify.gi_due it.raw ≠ "" ∧ Notify.gi_due it.raw ≠ Notify.gi_due old_raw then
              [pyStrip ("到期: " ++ Notify.hmOr (Notify.gi_due old_raw) ++ " -> "
                ++ Notify.hmOr (Notify.gi_due it.raw))] else [])
        ++ (if Notify.gi_status it.raw ≠ "" ∧ Notify.gi_status it.raw ≠ Notify.gi_status old_raw then
              [pyStrip ("状态: " ++ Notify.gi_status old_raw ++ " -> "
                ++ Notify.gi_status it.raw)] else []), ?_, ?_, ?_⟩
    · simp only [Notify.message_for_updated_item, hsrc]
      rw [if_pos trivial, if_neg hnA', if_pos hne]
    · simp
    · simp
  · intro heq
    have hA : ¬(Notify.is_missing_grade (Notify.gi_grade old_raw) = true
        ∧ ¬ Notify.is_missing_grade (Notify.gi_grade it.raw) = true) :=
      fun ⟨h1, h2⟩ => h2 (heq ▸ h1)
    have hB : ¬(Notify.gi_grade old_raw ≠ Notify.gi_grade it.raw) :=
      fun hne => hne heq
    refine ⟨?_, ?_⟩
    · intro hall
      have hd : Notify.gi_diffs old_raw it.raw = [] := (gi_diffs_eq_nil_iff _ _).mpr hall
      simp only [Notify.message_for_updated_item, hsrc]
      rw [if_pos trivial, if_neg hA, if_neg hB, if_neg (fun h => h hd)]
    · intro hsome
      have hd : Notify.gi_diffs old_raw it.raw ≠ [] :=
        fun h => hsome ((gi_diffs_eq_nil_iff _ _).mp h)
      refine ⟨?_, gi_diffs_length_le _ _⟩
      simp only [Notify.message_for_updated_item, hsrc]
      rw [if_pos trivial, if_neg hA, if_neg hB, if_pos hd]

/-- Witness for `grade_update_decision` at the `"95" → "98"` instance. -/
theorem grade_update_decision_witness :
    (let it : Models.Item :=
      { source := "grade_item", course_id := "c1",
        course_name := "信息学中的概率统计", title := "hw1", url := "u1",
        external_id := some "r1",
        raw := [("category", RawVal.str "作业"), ("grade_raw", RawVal.str "98"),
                ("points_possible_raw", RawVal.str "100")] }
     let old_raw : RawMap :=
      [("category", RawVal.str "作业"), ("grade_raw", RawVal.str "95"),
       ("points_possible_raw", RawVal.str "100")]
     (Notify.is_missing_grade (Notify.gi_grade old_raw) = true →
      Notify.is_missing_grade (Notify.gi_grade it.raw) = false →
      ∃ lines, Notify.message_for_updated_item it old_raw
        = some (Notify.build_bark_message
            (if Notify.gi_cat it.raw = "作业" ∨ Notify.gi_cat old_raw = "作业"
              then "作业出分" else "成绩出分")
            (pyStrip it.course_name) (pyStrip it.title) (pyStrip it.url) lines))
     ∧ (¬(Notify.is_missing_grade (Notify.gi_grade old_raw) = true
          ∧ Notify.is_missing_grade (Notify.gi_grade it.raw) = false) →
        Notify.gi_grade old_raw ≠ Notify.gi_grade it.raw →
        ∃ lines, Notify.message_for_updated_item it old_raw
          = some (Notify.build_bark_message
              (if Notify.gi_cat it.raw = "作业" ∨ Notify.gi_cat old_raw = "作业"
                then "作业成绩变动" else "成绩变动")
              (pyStrip it.course_name) (pyStrip it.title) (pyStrip it.url) lines)
          ∧ Notify.rstripSlash
              ("原成绩: " ++ Notify.gi_grade old_raw ++ "/" ++ Notify.gi_points old_raw)
              ∈ lines
          ∧ Notify.rstripSlash
              ("新成绩: " ++ Notify.gi_grade it.raw ++ "/" ++ Notify.gi_points it.raw)
              ∈ lines)
     ∧ (Notify.gi_grade old_raw = Notify.gi_grade it.raw →
        ((Notify.gi_points old_raw = Notify.gi_points it.raw
            ∧ Notify.gi_due old_raw = Notify.gi_due it.raw
            ∧ Notify.gi_status old_raw = Notify.gi_status it.raw
            ∧ Notify.gi_cat old_raw = Notify.gi_cat it.raw) →
          Notify.message_for_updated_item it old_raw = none)
        ∧ (¬(Notify.gi_points old_raw = Notify.gi_points it.raw
            ∧ Notify.gi_due old_raw = Notify.gi_due it.raw
            ∧ Notify.gi_status old_raw = Notify.gi_status it.raw
            ∧ Notify.gi_cat old_raw = Notify.gi_cat it.raw) →
          Notify.message_for_updated_item it old_raw
            = some (Notify.build_bark_message "成绩项更新"
                (pyStrip it.course_name) (pyStrip it.title) (pyStrip it.url)
                ((Notify.gi_diffs old_raw it.raw).take 6))
            ∧ (Notify.gi_diffs old_raw it.raw).length ≤ 4))
     ∧ Notify.message_for_updated_item
        { source := "grade_item", course_id := "c1",
          course_name := "信息学中的概率统计", title := "hw1", url := "u1",
          external_id := some "r1",
          raw := [("category", RawVal.str "作业"), ("grade_raw", RawVal.str "95"),
                  ("points_possible_raw", RawVal.str "100")] }
        [("category", RawVal.str "作业"), ("grade_raw", RawVal.str "-"),
         ("points_possible_raw", RawVal.str "100")]
      = some ⟨"[信息学中的概率统计] 作业出分", "hw1\n类别: 作业\n成绩: 95/100", "u1"⟩
     ∧ Notify.message_for_updated_item
        { source := "grade_item", course_id := "c1",
          course_name := "信息学中的概率统计", title := "hw1", url := "u1",
          external_id := some "r1",
          raw := [("category", RawVal.str "作业"), ("grade_raw", RawVal.str "98"),
                  ("points_possible_raw", RawVal.str "100")] }
        [("category", RawVal.str "作业"), ("grade_raw", RawVal.str "95"),
         ("points_possible_raw", RawVal.str "100")]
      = some ⟨"[信息学中的概率统计] 作业成绩变动",
          "hw1\n类别: 作业\n原成绩: 95/100\n新成绩: 98/100", "u1"⟩) := by
  intro it old_raw
  exact grade_update_decision it old_raw (by decide)

/-! ### C7 — timestamp normalizer -/

/-- C7 counterexample: no single timestamp-normalizing function of the
source has all three claimed behaviors. `normalize_bb_cn_datetime` returns
`""` (not the input) on unparseable input such as `"TBD"` and on
`"2025-9-26"`, and can raise (modelled `none`) on out-of-range components;
`humanize_time` does fall back to the input, but renders the CN long form as
`2025年10月18日 23:59:59`, not as the ISO string. -/
theorem timestamp_normalizer_counterexample :
    Ann.normalize_bb_cn_datetime "TBD" ≠ some "TBD"
    ∧ Ann.normalize_bb_cn_datetime "TBD" = some ""
    ∧ Ann.normalize_bb_cn_datetime "2025-9-26" = some ""
    ∧ Ann.normalize_bb_cn_datetime "2025年13月40日 99时99分99秒" = none
    ∧ Notify.humanize_time "2025年10月18日 星期六 下午11时59分59秒"
        ≠ "2025-10-18T23:59:59+08:00" := by
  refine ⟨by decide, by decide, by decide, by decide, by decide⟩

/-- C7 amended: `normalize_bb_cn_datetime` maps the CN long form
`"2025年10月18日 星期六 下午11时59分59秒"` to the canonical
`2025-10-18T23:59:59+08:00` (下午/晚上 add 12 below 12, 上午 maps 12 to 0,
中午 adds 12 below 11, and UTC+8 is assumed), but maps any non-matching
input — `"2025-9-26"`, `"TBD"` — to `""` rather than returning it, and can
raise on out-of-range components; the fallback-to-raw behavior belongs to
`humanize_time`, which returns the (whitespace-collapsed) input `"TBD"`
unchanged, renders `"2025-9-26"` as the date-only `2025年9月26日`, and
renders the CN long form as `2025年10月18日 23:59:59`. -/
theorem timestamp_normalizer_amended :
    Ann.normalize_bb_cn_datetime "2025年10月18日 星期六 下午11时59分59秒"
        = some "2025-10-18T23:59:59+08:00"
    ∧ Ann.normalize_bb_cn_datetime "2025年1月1日 上午12时5分6秒"
        = some "2025-01-01T00:05:06+08:00"
    ∧ Ann.normalize_bb_cn_datetime "2025年1月1日 中午10时0分0秒"
        = some "2025-01-01T22:00:00+08:00"
    ∧ Ann.normalize_bb_cn_datetime "2025年1月1日 晚上9时30分0秒"
        = some "2025-01-01T21:30:00+08:00"
    ∧ Ann.normalize_bb_cn_datetime "2025-9-26" = some ""
    ∧ Ann.normalize_bb_cn_datetime "TBD" = some ""
    ∧ Notify.humanize_time "2025-9-26" = "2025年9月26日"
    ∧ Notify.humanize_time "TBD" = "TBD"
    ∧ Notify.humanize_time "2025年10月18日 星期六 下午11时59分59秒"
        = "2025年10月18日 23:59:59" := by
  refine ⟨by decide, by decide, by decide, by decide, by decide, by decide,
    by decide, by decide, by decide⟩

/-! ### C9 — fetch_all error records and failure isolation -/

theorem enrich_err_shape (cid cname : String) (ds : Nat → Except String FetchAll.DetailEnv) :
    ∀ (l : List RawMap) (i : Nat) (r : FetchAll.ErrRec),
      r ∈ (FetchAll.enrichAssignments cid cname ds l i).2 →
      ∃ e, r = FetchAll.detailErr cid cname e := by
  intro l
  induction l with
  | nil =>
    intro i r hr
    simp [FetchAll.enrichAssignments] at hr
  | cons a rest ih =>
    intro i r hr
    by_cases hn : FetchAll.needsDetail a
    · cases hd : ds i with
      | ok d =>
        rw [show FetchAll.enrichAssignments cid cname ds (a :: rest) i
            = (if FetchAll.needsDetail a then
                match ds i with
                | .ok d =>
                  let info :=
                    if ¬(rawGet d.info "due_at_raw" .null).truthy
                        ∨ ¬(rawGet d.info "points_possible_raw" .null).truthy then
                      match d.newAttempt with
                      | some info2 => FetchAll.mergeNewAttempt d.info info2
                      | none => d.info
                    else d.info
                  let r := FetchAll.enrichAssignments cid cname ds rest (i + 1)
                  (FetchAll.applyDetail a info :: r.1, r.2)
                | .error e =>
                  let r := FetchAll.enrichAssignments cid cname ds rest (i + 1)
                  (a :: r.1, FetchAll.detailErr cid cname e :: r.2)
              else
                let r := FetchAll.enrichAssignments cid cname ds rest i
                (a :: r.1, r.2)) from rfl, if_pos hn, hd] at hr
        exact ih (i + 1) r hr
      | error e =>
        rw [show FetchAll.enrichAssignments cid cname ds (a :: rest) i
            = (if FetchAll.needsDetail a then
                match ds i with
                | .ok d =>
                  let info :=
                    if ¬(rawGet d.info "due_at_raw" .null).truthy
                        ∨ ¬(rawGet d.info "points_possible_raw" .null).truthy then
                      match d.newAttempt with
                      | some info2 => FetchAll.mergeNewAttempt d.info info2
                      | none => d.info
                    else d.info
                  let r := FetchAll.enrichAssignments cid cname ds rest (i + 1)
                  (FetchAll.applyDetail a info :: r.1, r.2)
                | .error e =>
                  let r := FetchAll.enrichAssignments cid cname ds rest (i + 1)
                  (a :: r.1, FetchAll.detailErr cid cname e :: r.2)
              else
                let r := FetchAll.enrichAssignments cid cname ds rest i
                (a :: r.1, r.2)) from rfl, if_pos hn, hd] at hr
        rcases List.mem_cons.mp hr with h | h
        · exact ⟨e, h⟩
        · exact ih (i + 1) r h
    · rw [show FetchAll.enrichAssignments cid cname ds (a :: rest) i
          = (if FetchAll.needsDetail a then
              match ds i with
              | .ok d =>
                let info :=
                  if ¬(rawGet d.info "due_at_raw" .null).truthy
                      ∨ ¬(rawGet d.info "points_possible_raw" .null).truthy then
                    match d.newAttempt with
                    | some info2 => FetchAll.mergeNewAttempt d.info info2
                    | none => d.info
                  else d.info
                let r := FetchAll.enrichAssignments cid cname ds rest (i + 1)
                (FetchAll.applyDetail a info :: r.1, r.2)
              | .error e =>
                let r := FetchAll.enrichAssignments cid cname ds rest (i + 1)
                (a :: r.1, FetchAll.detailErr cid cname e :: r.2)
            else
              let r := FetchAll.enrichAssignments cid cname ds rest i
              (a :: r.1, r.2)) from rfl, if_neg hn] at hr
      exact ih i r hr

theorem errWF_course (c : FetchAll.CourseEnv) :
    ∀ r ∈ (FetchAll.courseItemsErrors c).2, FetchAll.errWF r := by
  intro r hr
  cases hc : c.entry with
  | error e =>
    simp only [FetchAll.courseItemsErrors, hc] at hr
    rcases List.mem_singleton.mp hr with rfl
    exact ⟨rfl, rfl, rfl, rfl, Or.inr (Or.inl rfl)⟩
  | ok env =>
    simp only [FetchAll.courseItemsErrors, hc] at hr
    rcases List.mem_append.mp hr with hr1 | hrg
    rcases List.mem_append.mp hr1 with hr2 | hra
    rcases List.mem_append.mp hr2 with hann | htc
    · unfold FetchAll.boardAnn at hann
      cases hp : env.annParse with
      | ok ds => rw [hp] at hann; simp at hann
      | error e =>
        rw [hp] at hann
        simp only [List.mem_singleton] at hann
        subst hann
        exact ⟨rfl, rfl, rfl, rfl, Or.inr (Or.inr ⟨rfl, rfl⟩)⟩
    · unfold FetchAll.boardMenu at htc
      by_cases hh : env.teachingHref
      · rw [if_pos hh] at htc
        cases hp : env.teachingParse with
        | ok ds => rw [hp] at htc; simp at htc
        | error e =>
          rw [hp] at htc
          simp only [List.mem_singleton] at htc
          subst htc
          exact ⟨rfl, rfl, rfl, rfl, Or.inr (Or.inl rfl)⟩
      · rw [if_neg hh] at htc
        simp only [List.mem_singleton] at htc
        subst htc
        exact ⟨rfl, rfl, rfl, rfl, Or.inl rfl⟩
    · unfold FetchAll.boardAssignments at hra
      by_cases hh : env.assignmentsHref
      · rw [if_pos hh] at hra
        cases hp : env.assignmentsParse with
        | ok ass =>
          rw [hp] at hra
          simp only [] at hra
          obtain ⟨e, rfl⟩ := enrich_err_shape c.course_id c.course_name
            env.assignmentDetails ass 0 r hra
          exact ⟨rfl, rfl, rfl, rfl, Or.inr (Or.inl rfl)⟩
        | error e =>
          rw [hp] at hra
          simp only [List.mem_singleton] at hra
          subst hra
          exact ⟨rfl, rfl, rfl, rfl, Or.inr (Or.inl rfl)⟩
      · rw [if_neg hh] at hra
        simp only [List.mem_singleton] at hra
        subst hra
        exact ⟨rfl, rfl, rfl, rfl, Or.inl rfl⟩
    · unfold FetchAll.boardMenu at hrg
      by_cases hh : env.gradesHref
      · rw [if_pos hh] at hrg
        cases hp : env.gradesParse with
        | ok ds => rw [hp] at hrg; simp at hrg
        | error e =>
          rw [hp] at hrg
          simp only [List.mem_singleton] at hrg
          subst hrg
          exact ⟨rfl, rfl, rfl, rfl, Or.inr (Or.inl rfl)⟩
      · rw [if_neg hh] at hrg
        simp only [List.mem_singleton] at hrg
        subst hrg
        exact ⟨rfl, rfl, rfl, rfl, Or.inl rfl⟩

theorem fetch_all_items_decomp (courses : List FetchAll.CourseEnv) :
    FetchAll.fetch_all_items courses
      = ((courses.map (fun c => (FetchAll.courseItemsErrors c).1)).flatten,
         (courses.map (fun c => (FetchAll.courseItemsErrors c).2)).flatten) := by
  have general : ∀ (cs : List FetchAll.CourseEnv)
      (acc : List Models.Item × List FetchAll.ErrRec),
      cs.foldl (fun acc c =>
        let r := FetchAll.courseItemsErrors c
        (acc.1 ++ r.1, acc.2 ++ r.2)) acc
        = (acc.1 ++ (cs.map (fun c => (FetchAll.courseItemsErrors c).1)).flatten,
           acc.2 ++ (cs.map (fun c => (FetchAll.courseItemsErrors c).2)).flatten) := by
    intro cs
    induction cs with
    | nil => intro acc; simp
    | cons c rest ih =>
      intro acc
      simp only [List.foldl_cons, List.map_cons, List.flatten]
      rw [ih]
      simp [List.append_assoc]
  have h := general courses ([], [])
  simpa [FetchAll.fetch_all_items] using h

/-- C9 counterexample: when the announcements parse of a course raises, the
appended error record has no `"kind"` key at all (the source omits it in
that one branch), refuting "every error record carries the keys kind, …". -/
theorem fetch_error_keys_counterexample :
    (let c : FetchAll.CourseEnv :=
      { course_id := "c1", course_name := "课",
        entry := Except.ok
          { annParse := Except.error "boom"
            teachingHref := true, teachingParse := Except.ok []
            assignmentsHref := true, assignmentsParse := Except.ok []
            assignmentDetails := fun _ => Except.ok ⟨[], none⟩
            gradesHref := true, gradesParse := Except.ok [] } }
     (FetchAll.fetch_all_items [c]).2
        = [[("course_id", "c1"), ("course_name", "课"),
            ("board", "announcement"), ("error", "boom")]]
     ∧ (((FetchAll.fetch_all_items [c]).2.headD []).lookup "kind") = none) := by
  constructor
  · decide
  · decide

/-- C9 amended: every error record carries `course_id`, `course_name`,
`board` and `error`; every record except the announcement-board exception
record also carries `kind ∈ {missing_menu, exception}` (the announcement one
has no `kind` key); and failures are isolated: the output decomposes
per-course (each course's items/errors are a function of that course's pages
only, so a failing course never changes its siblings' contributions), and
within a course the four boards contribute independently in order. -/
theorem fetch_error_records_and_isolation (courses pre post : List FetchAll.CourseEnv)
    (c : FetchAll.CourseEnv) (cid cname : String) (env : FetchAll.EntryEnv) :
    (∀ r ∈ (FetchAll.fetch_all_items courses).2, FetchAll.errWF r)
    ∧ (FetchAll.fetch_all_items (pre ++ c :: post)).1
        = (FetchAll.fetch_all_items pre).1 ++ (FetchAll.courseItemsErrors c).1
          ++ (FetchAll.fetch_all_items post).1
    ∧ (FetchAll.fetch_all_items (pre ++ c :: post)).2
        = (FetchAll.fetch_all_items pre).2 ++ (FetchAll.courseItemsErrors c).2
          ++ (FetchAll.fetch_all_items post).2
    ∧ FetchAll.courseItemsErrors ⟨cid, cname, Except.ok env⟩
        = ((FetchAll.boardAnn cid cname env.annParse).1
            ++ (FetchAll.boardMenu cid cname "teaching_content"
                  env.teachingHref env.teachingParse).1
            ++ (FetchAll.boardAssignments cid cname env.assignmentsHref
                  env.assignmentsParse env.assignmentDetails).1
            ++ (FetchAll.boardMenu cid cname "grades" env.gradesHref env.gradesParse).1,
           (FetchAll.boardAnn cid cname env.annParse).2
            ++ (FetchAll.boardMenu cid cname "teaching_content"
                  env.teachingHref env.teachingParse).2
            ++ (FetchAll.boardAssignments cid cname env.assignmentsHref
                  env.assignmentsParse env.assignmentDetails).2
            ++ (FetchAll.boardMenu cid cname "grades" env.gradesHref env.gradesParse).2) := by
  refine ⟨?_, ?_, ?_, rfl⟩
  · intro r hr
    rw [fetch_all_items_decomp] at hr
    simp only [List.mem_flatten, List.mem_map] at hr
    obtain ⟨l, ⟨cc, _, rfl⟩, hrl⟩ := hr
    exact errWF_course cc r hrl
  · rw [fetch_all_items_decomp, fetch_all_items_decomp, fetch_all_items_decomp]
    simp [List.append_assoc]
  · rw [fetch_all_items_decomp, fetch_all_items_decomp, fetch_all_items_decomp]
    simp [List.append_assoc]

/-- Witness for `fetch_error_records_and_isolation`: one failing course
between two healthy ones. -/
theorem fetch_error_records_and_isolation_witness :
    (let genv : FetchAll.EntryEnv :=
      { annParse := Except.ok [],
        teachingHref := false, teachingParse := Except.ok [],
        assignmentsHref := false, assignmentsParse := Except.ok [],
        assignmentDetails := fun _ => Except.ok ⟨[], none⟩,
        gradesHref := false, gradesParse := Except.ok [] }
     let good : FetchAll.CourseEnv :=
      { course_id := "g", course_name := "G", entry := Except.ok genv }
     let bad : FetchAll.CourseEnv :=
      { course_id := "b", course_name := "B", entry := Except.error "down" }
     (∀ r ∈ (FetchAll.fetch_all_items [good, bad]).2, FetchAll.errWF r)
     ∧ (FetchAll.fetch_all_items ([good] ++ bad :: [good])).1
        = (FetchAll.fetch_all_items [good]).1 ++ (FetchAll.courseItemsErrors bad).1
          ++ (FetchAll.fetch_all_items [good]).1
     ∧ (FetchAll.fetch_all_items ([good] ++ bad :: [good])).2
        = (FetchAll.fetch_all_items [good]).2 ++ (FetchAll.courseItemsErrors bad).2
          ++ (FetchAll.fetch_all_items [good]).2
     ∧ FetchAll.courseItemsErrors ⟨"g", "G", Except.ok genv⟩
        = ((FetchAll.boardAnn "g" "G" genv.annParse).1
            ++ (FetchAll.boardMenu "g" "G" "teaching_content"
                  genv.teachingHref genv.teachingParse).1
            ++ (FetchAll.boardAssignments "g" "G" genv.assignmentsHref
                  genv.assignmentsParse genv.assignmentDetails).1
            ++ (FetchAll.boardMenu "g" "G" "grades" genv.gradesHref genv.gradesParse).1,
           (FetchAll.boardAnn "g" "G" genv.annParse).2
            ++ (FetchAll.boardMenu "g" "G" "teaching_content"
                  genv.teachingHref genv.teachingParse).2
            ++ (FetchAll.boardAssignments "g" "G" genv.assignmentsHref
                  genv.assignmentsParse genv.assignmentDetails).2
            ++ (FetchAll.boardMenu "g" "G" "grades" genv.gradesHref genv.gradesParse).2)) := by
  intro genv good bad
  exact fetch_error_records_and_isolation [good, bad] [good] [good] bad "g" "G" genv
